import Mathlib

/-!
Shallow embedding of vcpkg post-build lint (src/toolsrc/src/vcpkg/postbuildlint.cpp).

Modelling conventions:
- fs paths are lists of components; the C++ operator / on paths is Path.child.
- The filesystem and the external introspection tool (dumpbin) are inputs,
  given as function-valued records (Filesystem, World).
- Checks::check_exit with a false condition terminates the process; this is
  modelled as Except.error, so a function that can abort has an Except result.
- std::regex patterns used in this file are all dot-escaped literals matched
  case-insensitively; regex_search on them is case-insensitive substring
  containment of the unescaped literal.
- The _WIN32 configuration is embedded (the one where all checks exist).
-/

namespace PostBuildLint

/-- machine architecture codes of binary artifacts. Modelled from the spec:
cofffilereader.h is not under src; the spec describes a machine-type field
mapped through a fixed table (AMD64/IA64, I386, ARM/ARMNT, ARM64, with
unrecognized values rendered as their numeric code), which matches the
standard COFF machine constants used here. -/
structure MachineType where
  code : Nat
deriving DecidableEq, Repr

def MachineType.AMD64 : MachineType := ⟨0x8664⟩

def MachineType.IA64 : MachineType := ⟨0x200⟩

def MachineType.I386 : MachineType := ⟨0x14c⟩

def MachineType.ARM : MachineType := ⟨0x1c0⟩

def MachineType.ARMNT : MachineType := ⟨0x1c4⟩

def MachineType.ARM64 : MachineType := ⟨0xaa64⟩

/-- fs::path, modelled as its list of components. -/
structure Path where
  parts : List String
deriving DecidableEq, Repr

/-- The C++ path operator / : append one component. -/
def Path.child (p : Path) (s : String) : Path := ⟨p.parts ++ [s]⟩

def Path.filename (p : Path) : String := p.parts.getLastD ""

/-- fs::path::extension of a filename string: the suffix starting at the last
dot, except that a lone leading dot (dotfiles) and the special names "." and
".." yield no extension. -/
def extensionOfFilename (s : String) : String :=
  if s = "." ∨ s = ".." then ""
  else
    let rev := s.toList.reverse
    let afterDot := rev.takeWhile (fun c => c ≠ '.')
    if afterDot.length = rev.length then ""
    else if afterDot.length + 1 = s.toList.length then ""
    else "." ++ String.mk afterDot.reverse

def Path.extension (p : Path) : String := extensionOfFilename p.filename

/-- fs::path::generic_string - components joined by forward slashes. -/
def Path.generic_string (p : Path) : String := String.intercalate "/" p.parts

/-- fs::path::u8string - same rendering in this model. -/
def Path.u8string (p : Path) : String := p.generic_string

/-- fs::path::empty. -/
def Path.isEmptyPath (p : Path) : Bool := p.parts.isEmpty

/-- std::string::find(needle) != npos - substring containment. -/
def containsSubstring (haystack needle : String) : Bool :=
  decide (List.IsInfix needle.toList haystack.toList)

/-- std::regex_search with std::regex_constants::icase on a dot-escaped
literal pattern: case-insensitive substring containment of the unescaped
literal. stripBackslashes recovers the literal from the stored pattern. -/
def stripBackslashes (pattern : String) : String :=
  String.mk (pattern.toList.filter (fun c => c ≠ '\\'))

/-- ASCII lowercasing, written over the character list so that it reduces in
the kernel. -/
def asciiLower (s : String) : String :=
  String.mk (s.toList.map (fun c =>
    if 65 ≤ c.toNat ∧ c.toNat ≤ 90 then Char.ofNat (c.toNat + 32) else c))

def regex_search_icase (haystack pattern : String) : Bool :=
  containsSubstring (asciiLower haystack) (asciiLower (stripBackslashes pattern))

inductive LintStatus where
  | SUCCESS
  | ERROR_DETECTED
deriving DecidableEq, Repr

/-- static_cast of LintStatus to size_t (SUCCESS = 0, ERROR_DETECTED = 1),
as used by the operator += overload at postbuildlint.cpp line 729. -/
def LintStatus.as_size_t : LintStatus → Nat
  | LintStatus.SUCCESS => 0
  | LintStatus.ERROR_DETECTED => 1

abbrev Diags := List String

/-- The verdict of one check together with the diagnostic lines it printed. -/
structure CheckResult where
  status : LintStatus
  diags : Diags
deriving DecidableEq, Repr

/-- Checks::check_exit failing, or Checks::unreachable: both terminate the
process in the C++ code. -/
inductive VcpkgError where
  | check_exit_failed (msg : String)
  | unreachable
deriving DecidableEq, Repr

structure OutdatedDynamicCrt where
  name : String
  regex : String
deriving DecidableEq, Repr

def V_NO_120 : List OutdatedDynamicCrt := [
  ⟨"msvcp100.dll", "msvcp100\\.dll"⟩,
  ⟨"msvcp100d.dll", "msvcp100d\\.dll"⟩,
  ⟨"msvcp110.dll", "msvcp110\\.dll"⟩,
  ⟨"msvcp110_win.dll", "msvcp110_win\\.dll"⟩,
  ⟨"msvcp60.dll", "msvcp60\\.dll"⟩,
  ⟨"msvcp60.dll", "msvcp60\\.dll"⟩,
  ⟨"msvcrt.dll", "msvcrt\\.dll"⟩,
  ⟨"msvcr100.dll", "msvcr100\\.dll"⟩,
  ⟨"msvcr100d.dll", "msvcr100d\\.dll"⟩,
  ⟨"msvcr100_clr0400.dll", "msvcr100_clr0400\\.dll"⟩,
  ⟨"msvcr110.dll", "msvcr110\\.dll"⟩,
  ⟨"msvcrt20.dll", "msvcrt20\\.dll"⟩,
  ⟨"msvcrt40.dll", "msvcrt40\\.dll"⟩]

def V_NO_MSVCRT : List OutdatedDynamicCrt := V_NO_120 ++ [
  ⟨"msvcp120.dll", "msvcp120\\.dll"⟩,
  ⟨"msvcp120_clr0400.dll", "msvcp120_clr0400\\.dll"⟩,
  ⟨"msvcr120.dll", "msvcr120\\.dll"⟩,
  ⟨"msvcr120_clr0400.dll", "msvcr120_clr0400\\.dll"⟩]

def get_outdated_dynamic_crts (toolset_version : Option String) : List OutdatedDynamicCrt :=
  match toolset_version with
  | some tsv => if tsv = "v120" then V_NO_120 else V_NO_MSVCRT
  | none => V_NO_MSVCRT

/-- Modelled from the spec: build.h is not under src. The policy registry is
an enumerated set of named boolean switches, default false. -/
inductive BuildPolicy where
  | EMPTY_PACKAGE
  | DLLS_WITHOUT_LIBS
  | ALLOW_OBSOLETE_MSVCRT
  | ONLY_RELEASE_CRT
  | EMPTY_INCLUDE_FOLDER
deriving DecidableEq, Repr

/-- Modelled from the spec: registry as the set of enabled policies. -/
structure BuildPolicies where
  enabled : List BuildPolicy
deriving DecidableEq, Repr

def BuildPolicies.is_enabled (ps : BuildPolicies) (p : BuildPolicy) : Bool :=
  ps.enabled.contains p

/-- Modelled from the spec: the cmake variable name of a policy, used in the
remediation text of check_lib_files_are_available_if_dlls_are_available. -/
def to_cmake_variable : BuildPolicy → String
  | BuildPolicy.EMPTY_PACKAGE => "VCPKG_POLICY_EMPTY_PACKAGE"
  | BuildPolicy.DLLS_WITHOUT_LIBS => "VCPKG_POLICY_DLLS_WITHOUT_LIBS"
  | BuildPolicy.ALLOW_OBSOLETE_MSVCRT => "VCPKG_POLICY_ALLOW_OBSOLETE_MSVCRT"
  | BuildPolicy.ONLY_RELEASE_CRT => "VCPKG_POLICY_ONLY_RELEASE_CRT"
  | BuildPolicy.EMPTY_INCLUDE_FOLDER => "VCPKG_POLICY_EMPTY_INCLUDE_FOLDER"

/-- Modelled from the spec: a C++ enum class over an integer underlying type
with named values DYNAMIC and STATIC; values outside the named set are
representable (the orchestrator treats them as unreachable). -/
structure LinkageType where
  code : Nat
deriving DecidableEq, Repr

def LinkageType.DYNAMIC : LinkageType := ⟨0⟩

def LinkageType.STATIC : LinkageType := ⟨1⟩

/-- Modelled from the spec: debug/release configuration axis of a BuildType. -/
inductive ConfigurationType where
  | DEBUG
  | RELEASE
deriving DecidableEq, Repr

/-- Modelled from the spec: postbuildlint.buildtype.h is not under src. A
BuildType is a configuration times CRT-linkage pair with an associated
CRT detection pattern; the enumerated set of four values is closed. -/
structure BuildType where
  config : ConfigurationType
  linkage : LinkageType
deriving DecidableEq, Repr

def BuildType.value_of (c : ConfigurationType) (l : LinkageType) : BuildType := ⟨c, l⟩

def BuildTypeC.VALUES : List BuildType :=
  [⟨ConfigurationType.DEBUG, LinkageType.DYNAMIC⟩,
   ⟨ConfigurationType.DEBUG, LinkageType.STATIC⟩,
   ⟨ConfigurationType.RELEASE, LinkageType.DYNAMIC⟩,
   ⟨ConfigurationType.RELEASE, LinkageType.STATIC⟩]

/-- Modelled from the spec: the CRT-linkage detection pattern of a BuildType,
a fixed textual marker searched for in dumpbin /directives output. -/
def BuildType.crt_regex (bt : BuildType) : String :=
  match bt.config, bt.linkage.code with
  | ConfigurationType.DEBUG, 0 => "/DEFAULTLIB:MSVCRTD"
  | ConfigurationType.DEBUG, _ => "/DEFAULTLIB:LIBCMTD"
  | ConfigurationType.RELEASE, 0 => "/DEFAULTLIB:MSVCRT"
  | ConfigurationType.RELEASE, _ => "/DEFAULTLIB:LIBCMT"

def BuildType.to_string (bt : BuildType) : String :=
  match bt.config, bt.linkage.code with
  | ConfigurationType.DEBUG, 0 => "Debug,Dynamic"
  | ConfigurationType.DEBUG, _ => "Debug,Static"
  | ConfigurationType.RELEASE, 0 => "Release,Dynamic"
  | ConfigurationType.RELEASE, _ => "Release,Static"

/-- Modelled from the spec: PackageSpec identifies a package by name and
target triplet; spec.dir() is the package directory name derived from them. -/
structure PackageSpec where
  name : String
  triplet : String
deriving DecidableEq, Repr

def PackageSpec.dir (s : PackageSpec) : String := s.name ++ "_" ++ s.triplet

/-- Modelled from the spec: PreBuildInfo holds the target architecture
string, the optional toolset version, the optional declared build type and
the platform system name. -/
structure PreBuildInfo where
  target_architecture : String
  platform_toolset : Option String
  build_type : Option ConfigurationType
  cmake_system_name : String
deriving DecidableEq, Repr

/-- Modelled from the spec: BuildInfo holds the library linkage mode, the CRT
linkage mode and the policy registry. -/
structure BuildInfo where
  library_linkage : LinkageType
  crt_linkage : LinkageType
  policies : BuildPolicies
deriving DecidableEq, Repr

/-- The filesystem as seen by the checks: pure query functions supplied as
input to the validation run. -/
structure Filesystem where
  exists_p : Path → Bool
  is_directory : Path → Bool
  is_empty : Path → Bool
  get_files_recursive : Path → List Path
  get_files_non_recursive : Path → List Path

structure ExitCodeAndOutput where
  exit_code : Int
  output : String
deriving DecidableEq, Repr

/-- The ambient system: subprocess execution for the external introspection
tool and the native COFF readers, supplied as input. -/
structure DllInfo where
  machine_type : MachineType
deriving DecidableEq, Repr

structure LibInfo where
  machine_types : List MachineType
deriving DecidableEq, Repr

structure World where
  cmd_execute_and_capture_output : String → ExitCodeAndOutput
  read_dll : Path → DllInfo
  read_lib : Path → LibInfo

/-- Modelled from the spec: the toolset record carries the path of the
external introspection tool; an empty path means the tool is unavailable. -/
structure Toolset where
  dumpbin : Path

/-- Modelled from the spec: the path book of one vcpkg instance, restricted
to what the lint uses. package_dir spec is paths.packages / spec.dir(). -/
structure VcpkgPaths where
  fs : Filesystem
  toolset : Toolset
  packages : Path
  buildtrees : Path
  ports : Path

def VcpkgPaths.package_dir (paths : VcpkgPaths) (spec : PackageSpec) : Path :=
  paths.packages.child spec.dir

/-- Util::unstable_keep_if - keeps the elements satisfying the predicate
(the reordering the C++ version may do is immaterial here). -/
def unstable_keep_if (l : List Path) (pred : Path → Bool) : List Path :=
  l.filter pred

/-- has_extension_pred from postbuildlint.cpp line 19. -/
def has_extension_pred (fs : Filesystem) (ext : String) : Path → Bool :=
  fun path => !fs.is_directory path && path.extension == ext

/-- Files::print_paths. Modelled from the spec: files.cpp is not under src;
diagnostics name the implicated paths, one indented line each. -/
def print_paths (paths : List Path) : Diags :=
  paths.map (fun p => "    " ++ p.generic_string)

/-- Strings::format of the dumpbin command lines, e.g.
double-quoted tool path, an inspection flag, double-quoted file path. -/
def dumpbin_command (mode : String) (dumpbin_exe file : Path) : String :=
  "\"" ++ dumpbin_exe.u8string ++ "\" " ++ mode ++ " \"" ++ file.u8string ++ "\""

/-! ## The individual checks -/

def check_for_files_in_include_directory (fs : Filesystem) (policies : BuildPolicies)
    (package_dir : Path) : CheckResult :=
  if policies.is_enabled BuildPolicy.EMPTY_INCLUDE_FOLDER then ⟨LintStatus.SUCCESS, []⟩
  else
    let include_dir := package_dir.child "include"
    if !fs.exists_p include_dir || fs.is_empty include_dir then
      ⟨LintStatus.ERROR_DETECTED,
       ["The folder /include is empty or not present. This indicates the library was not correctly installed."]⟩
    else ⟨LintStatus.SUCCESS, []⟩

def check_for_files_in_debug_include_directory (fs : Filesystem) (package_dir : Path) :
    CheckResult :=
  let debug_include_dir := (package_dir.child "debug").child "include"
  let files_found := fs.get_files_recursive debug_include_dir
  let files_found := unstable_keep_if files_found
    (fun path => !fs.is_directory path && !(path.extension == ".ifc"))
  if !files_found.isEmpty then
    ⟨LintStatus.ERROR_DETECTED,
     ["Include files should not be duplicated into the /debug/include directory. If this cannot be disabled in the project cmake, use\n    file(REMOVE_RECURSE ${CURRENT_PACKAGES_DIR}/debug/include)"]⟩
  else ⟨LintStatus.SUCCESS, []⟩

def check_for_files_in_debug_share_directory (fs : Filesystem) (package_dir : Path) :
    CheckResult :=
  let debug_share := (package_dir.child "debug").child "share"
  if fs.exists_p debug_share then
    ⟨LintStatus.ERROR_DETECTED,
     ["/debug/share should not exist. Please reorganize any important files, then use\n    file(REMOVE_RECURSE ${CURRENT_PACKAGES_DIR}/debug/share)"]⟩
  else ⟨LintStatus.SUCCESS, []⟩

def check_folder_lib_cmake (fs : Filesystem) (package_dir : Path) (spec : PackageSpec) :
    CheckResult :=
  let lib_cmake := (package_dir.child "lib").child "cmake"
  if fs.exists_p lib_cmake then
    ⟨LintStatus.ERROR_DETECTED,
     ["The /lib/cmake folder should be merged with /debug/lib/cmake and moved to /share/" ++
      spec.name ++ "/cmake."]⟩
  else ⟨LintStatus.SUCCESS, []⟩

def check_for_misplaced_cmake_files (fs : Filesystem) (package_dir : Path)
    (spec : PackageSpec) : CheckResult :=
  let dirs : List Path :=
    [package_dir.child "cmake",
     (package_dir.child "debug").child "cmake",
     (package_dir.child "lib").child "cmake",
     ((package_dir.child "debug").child "lib").child "cmake"]
  let misplaced_cmake_files :=
    dirs.flatMap (fun dir =>
      (fs.get_files_recursive dir).filter
        (fun file => !fs.is_directory file && file.extension == ".cmake"))
  if !misplaced_cmake_files.isEmpty then
    ⟨LintStatus.ERROR_DETECTED,
     ["The following cmake files were found outside /share/" ++ spec.name ++
      ". Please place cmake files in /share/" ++ spec.name ++ "."] ++
     print_paths misplaced_cmake_files⟩
  else ⟨LintStatus.SUCCESS, []⟩

def check_folder_debug_lib_cmake (fs : Filesystem) (package_dir : Path)
    (spec : PackageSpec) : CheckResult :=
  let lib_cmake_debug := ((package_dir.child "debug").child "lib").child "cmake"
  if fs.exists_p lib_cmake_debug then
    ⟨LintStatus.ERROR_DETECTED,
     ["The /debug/lib/cmake folder should be merged with /lib/cmake into /share/" ++ spec.name]⟩
  else ⟨LintStatus.SUCCESS, []⟩

def check_for_dlls_in_lib_dir (fs : Filesystem) (package_dir : Path) : CheckResult :=
  let dlls := unstable_keep_if (fs.get_files_recursive (package_dir.child "lib"))
    (has_extension_pred fs ".dll")
  if !dlls.isEmpty then
    ⟨LintStatus.ERROR_DETECTED,
     ["\nThe following dlls were found in /lib or /debug/lib. Please move them to /bin or /debug/bin, respectively."] ++
     print_paths dlls⟩
  else ⟨LintStatus.SUCCESS, []⟩

def check_for_copyright_file (fs : Filesystem) (spec : PackageSpec) (paths : VcpkgPaths) :
    CheckResult :=
  let packages_dir := paths.packages.child spec.dir
  let copyright_file := ((packages_dir.child "share").child spec.name).child "copyright"
  if fs.exists_p copyright_file then ⟨LintStatus.SUCCESS, []⟩
  else
    let current_buildtrees_dir := paths.buildtrees.child spec.name
    let current_buildtrees_dir_src := current_buildtrees_dir.child "src"
    let potential_copyright_files :=
      (fs.get_files_non_recursive current_buildtrees_dir_src).flatMap (fun src_dir =>
        if !fs.is_directory src_dir then []
        else (fs.get_files_non_recursive src_dir).filter (fun src_file =>
          let filename := src_file.filename
          filename == "LICENSE" || filename == "LICENSE.txt" || filename == "COPYING"))
    let head_msg :=
      "The software license must be available at ${CURRENT_PACKAGES_DIR}/share/" ++
      spec.name ++ "/copyright"
    if h : potential_copyright_files.length = 1 then
      let found_file := potential_copyright_files.head (by
        intro he
        rw [he] at h
        exact absurd h (by decide))
      let relative_path :=
        (found_file.generic_string.drop (current_buildtrees_dir.generic_string.length + 1))
      ⟨LintStatus.ERROR_DETECTED,
       [head_msg,
        "\n    file(COPY ${CURRENT_BUILDTREES_DIR}/" ++ relative_path ++
        " DESTINATION ${CURRENT_PACKAGES_DIR}/share/" ++ spec.name ++ ")\n" ++
        "    file(RENAME ${CURRENT_PACKAGES_DIR}/share/" ++ spec.name ++ "/" ++
        found_file.filename ++ " ${CURRENT_PACKAGES_DIR}/share/" ++ spec.name ++ "/copyright)"]⟩
    else if potential_copyright_files.length > 1 then
      ⟨LintStatus.ERROR_DETECTED,
       [head_msg, "The following files are potential copyright files:"] ++
       print_paths potential_copyright_files⟩
    else ⟨LintStatus.ERROR_DETECTED, [head_msg]⟩

def check_for_exes (fs : Filesystem) (package_dir : Path) : CheckResult :=
  let exes := unstable_keep_if (fs.get_files_recursive (package_dir.child "bin"))
    (has_extension_pred fs ".exe")
  if !exes.isEmpty then
    ⟨LintStatus.ERROR_DETECTED,
     ["The following EXEs were found in /bin or /debug/bin. EXEs are not valid distribution targets."] ++
     print_paths exes⟩
  else ⟨LintStatus.SUCCESS, []⟩

/-- The per-dll loop of check_exports_of_dlls: runs dumpbin /exports on each
dll, aborts on a nonzero exit status, and collects the dlls whose output has
no export table marker. -/
def check_exports_of_dlls_loop (w : World) (dumpbin_exe : Path) :
    List Path → Except VcpkgError (List Path)
  | [] => Except.ok []
  | dll :: rest =>
    let cmd_line := dumpbin_command "/exports" dumpbin_exe dll
    let ec_data := w.cmd_execute_and_capture_output cmd_line
    if ec_data.exit_code = 0 then
      match check_exports_of_dlls_loop w dumpbin_exe rest with
      | Except.error e => Except.error e
      | Except.ok tail =>
        if containsSubstring ec_data.output "ordinal hint RVA      name" then Except.ok tail
        else Except.ok (dll :: tail)
    else
      Except.error (VcpkgError.check_exit_failed
        ("Running command:\n   " ++ cmd_line ++ "\n failed"))

def check_exports_of_dlls (w : World) (dlls : List Path) (dumpbin_exe : Path) :
    Except VcpkgError CheckResult :=
  match check_exports_of_dlls_loop w dumpbin_exe dlls with
  | Except.error e => Except.error e
  | Except.ok dlls_with_no_exports =>
    if !dlls_with_no_exports.isEmpty then
      Except.ok ⟨LintStatus.ERROR_DETECTED,
        ["The following DLLs have no exports:"] ++ print_paths dlls_with_no_exports ++
        ["DLLs without any exports are likely a bug in the build script."]⟩
    else Except.ok ⟨LintStatus.SUCCESS, []⟩

/-- The per-dll loop of check_uwp_bit_of_dlls: dumpbin /headers, abort on a
nonzero exit status, collect dlls without the App Container marker. -/
def check_uwp_bit_of_dlls_loop (w : World) (dumpbin_exe : Path) :
    List Path → Except VcpkgError (List Path)
  | [] => Except.ok []
  | dll :: rest =>
    let cmd_line := dumpbin_command "/headers" dumpbin_exe dll
    let ec_data := w.cmd_execute_and_capture_output cmd_line
    if ec_data.exit_code = 0 then
      match check_uwp_bit_of_dlls_loop w dumpbin_exe rest with
      | Except.error e => Except.error e
      | Except.ok tail =>
        if containsSubstring ec_data.output "App Container" then Except.ok tail
        else Except.ok (dll :: tail)
    else
      Except.error (VcpkgError.check_exit_failed
        ("Running command:\n   " ++ cmd_line ++ "\n failed"))

def check_uwp_bit_of_dlls (w : World) (expected_system_name : String) (dlls : List Path)
    (dumpbin_exe : Path) : Except VcpkgError CheckResult :=
  if expected_system_name ≠ "WindowsStore" then Except.ok ⟨LintStatus.SUCCESS, []⟩
  else
    match check_uwp_bit_of_dlls_loop w dumpbin_exe dlls with
    | Except.error e => Except.error e
    | Except.ok dlls_with_improper_uwp_bit =>
      if !dlls_with_improper_uwp_bit.isEmpty then
        Except.ok ⟨LintStatus.ERROR_DETECTED,
          ["The following DLLs do not have the App Container bit set:"] ++
          print_paths dlls_with_improper_uwp_bit ++
          ["This bit is required for Windows Store apps."]⟩
      else Except.ok ⟨LintStatus.SUCCESS, []⟩

structure FileAndArch where
  file : Path
  actual_arch : String
deriving DecidableEq, Repr

def get_actual_architecture (machine_type : MachineType) : String :=
  if machine_type = MachineType.AMD64 ∨ machine_type = MachineType.IA64 then "x64"
  else if machine_type = MachineType.I386 then "x86"
  else if machine_type = MachineType.ARM ∨ machine_type = MachineType.ARMNT then "arm"
  else if machine_type = MachineType.ARM64 then "arm64"
  else "Machine Type Code = " ++ toString machine_type.code

def print_invalid_architecture_files (expected_architecture : String)
    (binaries_with_invalid_architecture : List FileAndArch) : Diags :=
  ["The following files were built for an incorrect architecture:", ""] ++
  binaries_with_invalid_architecture.flatMap (fun b =>
    ["    " ++ b.file.generic_string,
     "Expected " ++ expected_architecture ++ ", but was: " ++ b.actual_arch,
     ""])

/-- The per-file loop of check_dll_architecture: fatal check on the file
extension, then collect the files not built for the expected architecture. -/
def check_dll_architecture_loop (w : World) (expected_architecture : String) :
    List Path → Except VcpkgError (List FileAndArch)
  | [] => Except.ok []
  | file :: rest =>
    if file.extension = ".dll" then
      let info := w.read_dll file
      let actual_architecture := get_actual_architecture info.machine_type
      match check_dll_architecture_loop w expected_architecture rest with
      | Except.error e => Except.error e
      | Except.ok tail =>
        if expected_architecture ≠ actual_architecture then
          Except.ok (⟨file, actual_architecture⟩ :: tail)
        else Except.ok tail
    else
      Except.error (VcpkgError.check_exit_failed
        ("The file extension was not .dll: " ++ file.generic_string))

def check_dll_architecture (w : World) (expected_architecture : String)
    (files : List Path) : Except VcpkgError CheckResult :=
  match check_dll_architecture_loop w expected_architecture files with
  | Except.error e => Except.error e
  | Except.ok binaries_with_invalid_architecture =>
    if !binaries_with_invalid_architecture.isEmpty then
      Except.ok ⟨LintStatus.ERROR_DETECTED,
        print_invalid_architecture_files expected_architecture binaries_with_invalid_architecture⟩
    else Except.ok ⟨LintStatus.SUCCESS, []⟩

/-- The per-file loop of check_lib_architecture. An archive reporting zero
machine types makes the whole check return SUCCESS at once (postbuildlint.cpp
line 440), which the outer Option models as none; an archive with more than
one machine type is a fatal check; otherwise files not built for the expected
architecture are collected. -/
def check_lib_architecture_loop (w : World) (expected_architecture : String) :
    List Path → Except VcpkgError (Option (List FileAndArch))
  | [] => Except.ok (some [])
  | file :: rest =>
    if file.extension = ".lib" then
      let info := w.read_lib file
      match info.machine_types with
      | [] => Except.ok none
      | [mt] =>
        let actual_architecture := get_actual_architecture mt
        match check_lib_architecture_loop w expected_architecture rest with
        | Except.error e => Except.error e
        | Except.ok none => Except.ok none
        | Except.ok (some tail) =>
          if expected_architecture ≠ actual_architecture then
            Except.ok (some (⟨file, actual_architecture⟩ :: tail))
          else Except.ok (some tail)
      | _ :: _ :: _ =>
        Except.error (VcpkgError.check_exit_failed
          ("Found more than 1 architecture in file " ++ file.generic_string))
    else
      Except.error (VcpkgError.check_exit_failed
        ("The file extension was not .lib: " ++ file.generic_string))

def check_lib_architecture (w : World) (expected_architecture : String)
    (files : List Path) : Except VcpkgError CheckResult :=
  match check_lib_architecture_loop w expected_architecture files with
  | Except.error e => Except.error e
  | Except.ok none => Except.ok ⟨LintStatus.SUCCESS, []⟩
  | Except.ok (some binaries_with_invalid_architecture) =>
    if !binaries_with_invalid_architecture.isEmpty then
      Except.ok ⟨LintStatus.ERROR_DETECTED,
        print_invalid_architecture_files expected_architecture binaries_with_invalid_architecture⟩
    else Except.ok ⟨LintStatus.SUCCESS, []⟩

def check_no_dlls_present (dlls : List Path) : CheckResult :=
  if dlls.isEmpty then ⟨LintStatus.SUCCESS, []⟩
  else
    ⟨LintStatus.ERROR_DETECTED,
     ["DLLs should not be present in a static build, but the following DLLs were found:"] ++
     print_paths dlls⟩

def check_matching_debug_and_release_binaries (debug_binaries release_binaries : List Path) :
    CheckResult :=
  let debug_count := debug_binaries.length
  let release_count := release_binaries.length
  if debug_count = release_count then ⟨LintStatus.SUCCESS, []⟩
  else
    ⟨LintStatus.ERROR_DETECTED,
     ["Mismatching number of debug and release binaries. Found " ++ toString debug_count ++
      " for debug but " ++ toString release_count ++ " for release."] ++
     ["Debug binaries"] ++ print_paths debug_binaries ++
     ["Release binaries"] ++ print_paths release_binaries ++
     (if debug_count = 0 then ["Debug binaries were not found"] else []) ++
     (if release_count = 0 then ["Release binaries were not found"] else []) ++
     [""]⟩

def check_lib_files_are_available_if_dlls_are_available (policies : BuildPolicies)
    (lib_count dll_count : Nat) (lib_dir : Path) : CheckResult :=
  if policies.is_enabled BuildPolicy.DLLS_WITHOUT_LIBS then ⟨LintStatus.SUCCESS, []⟩
  else if lib_count = 0 ∧ dll_count ≠ 0 then
    ⟨LintStatus.ERROR_DETECTED,
     ["Import libs were not present in " ++ lib_dir.u8string,
      "If this is intended, add the following line in the portfile:\n    SET(" ++
      to_cmake_variable BuildPolicy.DLLS_WITHOUT_LIBS ++ " enabled)"]⟩
  else ⟨LintStatus.SUCCESS, []⟩

def check_bin_folders_are_not_present_in_static_build (fs : Filesystem)
    (package_dir : Path) : CheckResult :=
  let bin := package_dir.child "bin"
  let debug_bin := (package_dir.child "debug").child "bin"
  if !fs.exists_p bin && !fs.exists_p debug_bin then ⟨LintStatus.SUCCESS, []⟩
  else
    ⟨LintStatus.ERROR_DETECTED,
     (if fs.exists_p bin then
        ["There should be no bin\\ directory in a static build, but " ++ bin.u8string ++
         " is present."]
      else []) ++
     (if fs.exists_p debug_bin then
        ["There should be no debug\\bin\\ directory in a static build, but " ++
         debug_bin.u8string ++ " is present."]
      else []) ++
     ["If the creation of bin\\ and/or debug\\bin\\ cannot be disabled, use this in the portfile to remove them\n\n    if(VCPKG_LIBRARY_LINKAGE STREQUAL static)\n        file(REMOVE_RECURSE ${CURRENT_PACKAGES_DIR}/bin ${CURRENT_PACKAGES_DIR}/debug/bin)\n    endif()\n"]⟩

def check_no_empty_folders (fs : Filesystem) (dir : Path) : CheckResult :=
  let empty_directories := unstable_keep_if (fs.get_files_recursive dir)
    (fun current => fs.is_directory current && fs.is_empty current)
  if !empty_directories.isEmpty then
    ⟨LintStatus.ERROR_DETECTED,
     ["There should be no empty directories in " ++ dir.generic_string,
      "The following empty directories were found: "] ++
     print_paths empty_directories ++
     ["If a directory should be populated but is not, this might indicate an error in the portfile.\nIf the directories are not needed and their creation cannot be disabled, use something like this in the portfile to remove them:\n\n    file(REMOVE_RECURSE ${CURRENT_PACKAGES_DIR}/a/dir ${CURRENT_PACKAGES_DIR}/some/other/dir)\n\n"]⟩
  else ⟨LintStatus.SUCCESS, []⟩

structure BuildTypeAndFile where
  file : Path
  build_type : BuildType
deriving DecidableEq, Repr

/-- The per-lib loop of check_crt_linkage_of_libs: dumpbin /directives, fatal
on a nonzero exit status, collect each lib with the first bad build type
whose CRT marker appears in the output. -/
def check_crt_linkage_of_libs_loop (w : World) (bad_build_types : List BuildType)
    (dumpbin_exe : Path) : List Path → Except VcpkgError (List BuildTypeAndFile)
  | [] => Except.ok []
  | lib :: rest =>
    let cmd_line := dumpbin_command "/directives" dumpbin_exe lib
    let ec_data := w.cmd_execute_and_capture_output cmd_line
    if ec_data.exit_code = 0 then
      match check_crt_linkage_of_libs_loop w bad_build_types dumpbin_exe rest with
      | Except.error e => Except.error e
      | Except.ok tail =>
        match bad_build_types.find?
            (fun bad => containsSubstring ec_data.output bad.crt_regex) with
        | some bad_build_type => Except.ok (⟨lib, bad_build_type⟩ :: tail)
        | none => Except.ok tail
    else
      Except.error (VcpkgError.check_exit_failed
        ("Running command:\n   " ++ cmd_line ++ "\n failed with message:\n" ++ ec_data.output))

def check_crt_linkage_of_libs (w : World) (expected_build_type : BuildType)
    (libs : List Path) (dumpbin_exe : Path) : Except VcpkgError CheckResult :=
  let bad_build_types := BuildTypeC.VALUES.filter (fun bt => bt ≠ expected_build_type)
  match check_crt_linkage_of_libs_loop w bad_build_types dumpbin_exe libs with
  | Except.error e => Except.error e
  | Except.ok libs_with_invalid_crt =>
    if !libs_with_invalid_crt.isEmpty then
      Except.ok ⟨LintStatus.ERROR_DETECTED,
        ["Expected " ++ expected_build_type.to_string ++
         " crt linkage, but the following libs had invalid crt linkage:", ""] ++
        libs_with_invalid_crt.map (fun btf =>
          "    " ++ btf.file.generic_string ++ ": " ++ btf.build_type.to_string) ++
        ["", "To inspect the lib files, use:\n    dumpbin.exe /directives mylibfile.lib"]⟩
    else Except.ok ⟨LintStatus.SUCCESS, []⟩

structure OutdatedDynamicCrtAndFile where
  file : Path
  outdated_crt : OutdatedDynamicCrt
deriving DecidableEq, Repr

/-- The per-dll loop of check_outdated_crt_linkage_of_dlls: dumpbin
/dependents, fatal on a nonzero exit status, collect each dll with the first
outdated CRT entry whose pattern matches the output. -/
def check_outdated_crt_linkage_of_dlls_loop (w : World) (dumpbin_exe : Path)
    (pre_build_info : PreBuildInfo) : List Path → Except VcpkgError (List OutdatedDynamicCrtAndFile)
  | [] => Except.ok []
  | dll :: rest =>
    let cmd_line := dumpbin_command "/dependents" dumpbin_exe dll
    let ec_data := w.cmd_execute_and_capture_output cmd_line
    if ec_data.exit_code = 0 then
      match check_outdated_crt_linkage_of_dlls_loop w dumpbin_exe pre_build_info rest with
      | Except.error e => Except.error e
      | Except.ok tail =>
        match (get_outdated_dynamic_crts pre_build_info.platform_toolset).find?
            (fun outdated_crt => regex_search_icase ec_data.output outdated_crt.regex) with
        | some outdated_crt => Except.ok (⟨dll, outdated_crt⟩ :: tail)
        | none => Except.ok tail
    else
      Except.error (VcpkgError.check_exit_failed
        ("Running command:\n   " ++ cmd_line ++ "\n failed"))

def check_outdated_crt_linkage_of_dlls (w : World) (dlls : List Path) (dumpbin_exe : Path)
    (build_info : BuildInfo) (pre_build_info : PreBuildInfo) : Except VcpkgError CheckResult :=
  if build_info.policies.is_enabled BuildPolicy.ALLOW_OBSOLETE_MSVCRT then
    Except.ok ⟨LintStatus.SUCCESS, []⟩
  else
    match check_outdated_crt_linkage_of_dlls_loop w dumpbin_exe pre_build_info dlls with
    | Except.error e => Except.error e
    | Except.ok dlls_with_outdated_crt =>
      if !dlls_with_outdated_crt.isEmpty then
        Except.ok ⟨LintStatus.ERROR_DETECTED,
          ["Detected outdated dynamic CRT in the following files:", ""] ++
          dlls_with_outdated_crt.map (fun btf =>
            "    " ++ btf.file.generic_string ++ ": " ++ btf.outdated_crt.name) ++
          ["", "To inspect the dll files, use:\n    dumpbin.exe /dependents mydllfile.dll"]⟩
      else Except.ok ⟨LintStatus.SUCCESS, []⟩

/-- Strings::case_insensitive_ascii_equals. -/
def case_insensitive_ascii_equals (a b : String) : Bool :=
  asciiLower a == asciiLower b

def check_no_files_in_dir (fs : Filesystem) (dir : Path) : CheckResult :=
  let misplaced_files := unstable_keep_if (fs.get_files_non_recursive dir) (fun path =>
    let filename := path.filename
    if case_insensitive_ascii_equals filename "CONTROL" ||
       case_insensitive_ascii_equals filename "BUILD_INFO" then false
    else !fs.is_directory path)
  if !misplaced_files.isEmpty then
    ⟨LintStatus.ERROR_DETECTED,
     ["The following files are placed in\n" ++ dir.u8string ++ ": "] ++
     print_paths misplaced_files ++
     ["Files cannot be present in those directories.\n"]⟩
  else ⟨LintStatus.SUCCESS, []⟩


/-! ## The validation orchestrator

perform_all_checks_and_return_error_count is the direct translation of the
source orchestrator (postbuildlint.cpp lines 731-848); for proof modularity
the statement blocks of that one C++ function are lambda-lifted into named
parts (the shared leading block, the DYNAMIC-branch block and the
STATIC-branch block), each accumulating the error count and diagnostics in
source order.

checks_run_spec and its parts are the second, spec-side description: the
sequence of the checks that were run, each tagged with its call site and
paired with its verdict, up to the point where a fatal error, if any,
aborts the run. -/

/-- The operator += overload of postbuildlint.cpp line 729, extended to also
carry along the diagnostic stream the check printed. -/
def step (acc : Nat × Diags) (r : CheckResult) : Nat × Diags :=
  (acc.1 + r.status.as_size_t, acc.2 ++ r.diags)

abbrev TaggedResult := String × CheckResult

def tstep (t : List TaggedResult) (tag : String) (r : CheckResult) : List TaggedResult :=
  t ++ [(tag, r)]

def scanned_debug_libs (fs : Filesystem) (package_dir : Path) : List Path :=
  unstable_keep_if (fs.get_files_recursive ((package_dir.child "debug").child "lib"))
    (has_extension_pred fs ".lib")

def scanned_release_libs (fs : Filesystem) (package_dir : Path) : List Path :=
  unstable_keep_if (fs.get_files_recursive (package_dir.child "lib"))
    (has_extension_pred fs ".lib")

def scanned_debug_dlls (fs : Filesystem) (package_dir : Path) : List Path :=
  unstable_keep_if (fs.get_files_recursive ((package_dir.child "debug").child "bin"))
    (has_extension_pred fs ".dll")

def scanned_release_dlls (fs : Filesystem) (package_dir : Path) : List Path :=
  unstable_keep_if (fs.get_files_recursive (package_dir.child "bin"))
    (has_extension_pred fs ".dll")

/-- The three closing checks run after the linkage switch (lines 843-845). -/
def closing_checks_acc (fs : Filesystem) (package_dir : Path) (acc : Nat × Diags) :
    Nat × Diags :=
  step (step (step acc (check_no_empty_folders fs package_dir))
      (check_no_files_in_dir fs package_dir))
    (check_no_files_in_dir fs (package_dir.child "debug"))

def closing_checks_trace (fs : Filesystem) (package_dir : Path) (t : List TaggedResult) :
    List TaggedResult :=
  tstep (tstep (tstep t "check_no_empty_folders" (check_no_empty_folders fs package_dir))
      "check_no_files_in_dir" (check_no_files_in_dir fs package_dir))
    "check_no_files_in_dir(debug)" (check_no_files_in_dir fs (package_dir.child "debug"))

/-- Lines 749-772: the shared checks run before the architecture check and
the linkage switch, including the debug/release lib matching check that is
conditional on no declared build type. -/
def perform_prefix_checks (fs : Filesystem) (spec : PackageSpec) (paths : VcpkgPaths)
    (pre_build_info : PreBuildInfo) (build_info : BuildInfo) (package_dir : Path) :
    Nat × Diags :=
  let acc := step (0, []) (check_for_files_in_include_directory fs build_info.policies package_dir)
  let acc := step acc (check_for_files_in_debug_include_directory fs package_dir)
  let acc := step acc (check_for_files_in_debug_share_directory fs package_dir)
  let acc := step acc (check_folder_lib_cmake fs package_dir spec)
  let acc := step acc (check_for_misplaced_cmake_files fs package_dir spec)
  let acc := step acc (check_folder_debug_lib_cmake fs package_dir spec)
  let acc := step acc (check_for_dlls_in_lib_dir fs package_dir)
  let acc := step acc (check_for_dlls_in_lib_dir fs (package_dir.child "debug"))
  let acc := step acc (check_for_copyright_file fs spec paths)
  let acc := step acc (check_for_exes fs package_dir)
  let acc := step acc (check_for_exes fs (package_dir.child "debug"))
  if pre_build_info.build_type.isNone then
    step acc (check_matching_debug_and_release_binaries
      (scanned_debug_libs fs package_dir) (scanned_release_libs fs package_dir))
  else acc

def trace_prefix_checks (fs : Filesystem) (spec : PackageSpec) (paths : VcpkgPaths)
    (pre_build_info : PreBuildInfo) (build_info : BuildInfo) (package_dir : Path) :
    List TaggedResult :=
  let t := tstep [] "check_for_files_in_include_directory"
    (check_for_files_in_include_directory fs build_info.policies package_dir)
  let t := tstep t "check_for_files_in_debug_include_directory"
    (check_for_files_in_debug_include_directory fs package_dir)
  let t := tstep t "check_for_files_in_debug_share_directory"
    (check_for_files_in_debug_share_directory fs package_dir)
  let t := tstep t "check_folder_lib_cmake" (check_folder_lib_cmake fs package_dir spec)
  let t := tstep t "check_for_misplaced_cmake_files"
    (check_for_misplaced_cmake_files fs package_dir spec)
  let t := tstep t "check_folder_debug_lib_cmake"
    (check_folder_debug_lib_cmake fs package_dir spec)
  let t := tstep t "check_for_dlls_in_lib_dir" (check_for_dlls_in_lib_dir fs package_dir)
  let t := tstep t "check_for_dlls_in_lib_dir(debug)"
    (check_for_dlls_in_lib_dir fs (package_dir.child "debug"))
  let t := tstep t "check_for_copyright_file" (check_for_copyright_file fs spec paths)
  let t := tstep t "check_for_exes" (check_for_exes fs package_dir)
  let t := tstep t "check_for_exes(debug)" (check_for_exes fs (package_dir.child "debug"))
  if pre_build_info.build_type.isNone then
    tstep t "check_matching_debug_and_release_binaries(libs)"
      (check_matching_debug_and_release_binaries
        (scanned_debug_libs fs package_dir) (scanned_release_libs fs package_dir))
  else t

/-- Lines 789-814: the DYNAMIC branch of the linkage switch, followed by the
closing checks; the continuation is written out in both arms of the dumpbin
availability test (same control flow as the source, flattened). -/
def perform_dynamic_checks (w : World) (fs : Filesystem) (toolset : Toolset)
    (package_dir : Path) (pre_build_info : PreBuildInfo) (build_info : BuildInfo)
    (acc : Nat × Diags) : Except VcpkgError (Nat × Diags) :=
  let debug_libs := scanned_debug_libs fs package_dir
  let release_libs := scanned_release_libs fs package_dir
  let debug_dlls := scanned_debug_dlls fs package_dir
  let release_dlls := scanned_release_dlls fs package_dir
  let acc := if pre_build_info.build_type.isNone then
      step acc (check_matching_debug_and_release_binaries debug_dlls release_dlls)
    else acc
  let acc := step acc (check_lib_files_are_available_if_dlls_are_available
    build_info.policies debug_libs.length debug_dlls.length
    ((package_dir.child "debug").child "lib"))
  let acc := step acc (check_lib_files_are_available_if_dlls_are_available
    build_info.policies release_libs.length release_dlls.length (package_dir.child "lib"))
  let dlls := debug_dlls ++ release_dlls
  if toolset.dumpbin.isEmptyPath then
    match check_dll_architecture w pre_build_info.target_architecture dlls with
    | Except.error e => Except.error e
    | Except.ok r_dll_arch =>
      Except.ok (closing_checks_acc fs package_dir (step acc r_dll_arch))
  else
    match check_exports_of_dlls w dlls toolset.dumpbin with
    | Except.error e => Except.error e
    | Except.ok r_exports =>
      match check_uwp_bit_of_dlls w pre_build_info.cmake_system_name dlls toolset.dumpbin with
      | Except.error e => Except.error e
      | Except.ok r_uwp =>
        match check_outdated_crt_linkage_of_dlls w dlls toolset.dumpbin
            build_info pre_build_info with
        | Except.error e => Except.error e
        | Except.ok r_outdated =>
          match check_dll_architecture w pre_build_info.target_architecture dlls with
          | Except.error e => Except.error e
          | Except.ok r_dll_arch =>
            Except.ok (closing_checks_acc fs package_dir
              (step (step (step (step acc r_exports) r_uwp) r_outdated) r_dll_arch))

def trace_dynamic_checks (w : World) (fs : Filesystem) (toolset : Toolset)
    (package_dir : Path) (pre_build_info : PreBuildInfo) (build_info : BuildInfo)
    (t : List TaggedResult) : List TaggedResult × Option VcpkgError :=
  let debug_libs := scanned_debug_libs fs package_dir
  let release_libs := scanned_release_libs fs package_dir
  let debug_dlls := scanned_debug_dlls fs package_dir
  let release_dlls := scanned_release_dlls fs package_dir
  let t := if pre_build_info.build_type.isNone then
      tstep t "check_matching_debug_and_release_binaries(dlls)"
        (check_matching_debug_and_release_binaries debug_dlls release_dlls)
    else t
  let t := tstep t "check_lib_files_are_available_if_dlls_are_available(debug)"
    (check_lib_files_are_available_if_dlls_are_available
      build_info.policies debug_libs.length debug_dlls.length
      ((package_dir.child "debug").child "lib"))
  let t := tstep t "check_lib_files_are_available_if_dlls_are_available(release)"
    (check_lib_files_are_available_if_dlls_are_available
      build_info.policies release_libs.length release_dlls.length (package_dir.child "lib"))
  let dlls := debug_dlls ++ release_dlls
  if toolset.dumpbin.isEmptyPath then
    match check_dll_architecture w pre_build_info.target_architecture dlls with
    | Except.error e => (t, some e)
    | Except.ok r_dll_arch =>
      (closing_checks_trace fs package_dir (tstep t "check_dll_architecture" r_dll_arch), none)
  else
    match check_exports_of_dlls w dlls toolset.dumpbin with
    | Except.error e => (t, some e)
    | Except.ok r_exports =>
      let t := tstep t "check_exports_of_dlls" r_exports
      match check_uwp_bit_of_dlls w pre_build_info.cmake_system_name dlls toolset.dumpbin with
      | Except.error e => (t, some e)
      | Except.ok r_uwp =>
        let t := tstep t "check_uwp_bit_of_dlls" r_uwp
        match check_outdated_crt_linkage_of_dlls w dlls toolset.dumpbin
            build_info pre_build_info with
        | Except.error e => (t, some e)
        | Except.ok r_outdated =>
          let t := tstep t "check_outdated_crt_linkage_of_dlls" r_outdated
          match check_dll_architecture w pre_build_info.target_architecture dlls with
          | Except.error e => (t, some e)
          | Except.ok r_dll_arch =>
            (closing_checks_trace fs package_dir
              (tstep t "check_dll_architecture" r_dll_arch), none)

/-- Lines 816-839: the STATIC branch of the linkage switch, followed by the
closing checks, flattened the same way. -/
def perform_static_checks (w : World) (fs : Filesystem) (toolset : Toolset)
    (package_dir : Path) (build_info : BuildInfo) (acc : Nat × Diags) :
    Except VcpkgError (Nat × Diags) :=
  let debug_libs := scanned_debug_libs fs package_dir
  let release_libs := scanned_release_libs fs package_dir
  let dlls := scanned_release_dlls fs package_dir ++ scanned_debug_dlls fs package_dir
  let acc := step acc (check_no_dlls_present dlls)
  let acc := step acc (check_bin_folders_are_not_present_in_static_build fs package_dir)
  if toolset.dumpbin.isEmptyPath then
    Except.ok (closing_checks_acc fs package_dir acc)
  else if build_info.policies.is_enabled BuildPolicy.ONLY_RELEASE_CRT then
    match check_crt_linkage_of_libs w
        (BuildType.value_of ConfigurationType.RELEASE build_info.crt_linkage)
        release_libs toolset.dumpbin with
    | Except.error e => Except.error e
    | Except.ok r_crt_rel =>
      Except.ok (closing_checks_acc fs package_dir (step acc r_crt_rel))
  else
    match check_crt_linkage_of_libs w
        (BuildType.value_of ConfigurationType.DEBUG build_info.crt_linkage)
        debug_libs toolset.dumpbin with
    | Except.error e => Except.error e
    | Except.ok r_crt_dbg =>
      match check_crt_linkage_of_libs w
          (BuildType.value_of ConfigurationType.RELEASE build_info.crt_linkage)
          release_libs toolset.dumpbin with
      | Except.error e => Except.error e
      | Except.ok r_crt_rel =>
        Except.ok (closing_checks_acc fs package_dir (step (step acc r_crt_dbg) r_crt_rel))

def trace_static_checks (w : World) (fs : Filesystem) (toolset : Toolset)
    (package_dir : Path) (build_info : BuildInfo) (t : List TaggedResult) :
    List TaggedResult × Option VcpkgError :=
  let debug_libs := scanned_debug_libs fs package_dir
  let release_libs := scanned_release_libs fs package_dir
  let dlls := scanned_release_dlls fs package_dir ++ scanned_debug_dlls fs package_dir
  let t := tstep t "check_no_dlls_present" (check_no_dlls_present dlls)
  let t := tstep t "check_bin_folders_are_not_present_in_static_build"
    (check_bin_folders_are_not_present_in_static_build fs package_dir)
  if toolset.dumpbin.isEmptyPath then
    (closing_checks_trace fs package_dir t, none)
  else if build_info.policies.is_enabled BuildPolicy.ONLY_RELEASE_CRT then
    match check_crt_linkage_of_libs w
        (BuildType.value_of ConfigurationType.RELEASE build_info.crt_linkage)
        release_libs toolset.dumpbin with
    | Except.error e => (t, some e)
    | Except.ok r_crt_rel =>
      (closing_checks_trace fs package_dir
        (tstep t "check_crt_linkage_of_libs(release)" r_crt_rel), none)
  else
    match check_crt_linkage_of_libs w
        (BuildType.value_of ConfigurationType.DEBUG build_info.crt_linkage)
        debug_libs toolset.dumpbin with
    | Except.error e => (t, some e)
    | Except.ok r_crt_dbg =>
      let t := tstep t "check_crt_linkage_of_libs(debug)" r_crt_dbg
      match check_crt_linkage_of_libs w
          (BuildType.value_of ConfigurationType.RELEASE build_info.crt_linkage)
          release_libs toolset.dumpbin with
      | Except.error e => (t, some e)
      | Except.ok r_crt_rel =>
        (closing_checks_trace fs package_dir
          (tstep t "check_crt_linkage_of_libs(release)" r_crt_rel), none)

def perform_all_checks_and_return_error_count (w : World) (spec : PackageSpec)
    (paths : VcpkgPaths) (pre_build_info : PreBuildInfo) (build_info : BuildInfo) :
    Except VcpkgError (Nat × Diags) :=
  let fs := paths.fs
  let toolset := paths.toolset
  let package_dir := paths.package_dir spec
  if build_info.policies.is_enabled BuildPolicy.EMPTY_PACKAGE then Except.ok (0, [])
  else
    let acc := perform_prefix_checks fs spec paths pre_build_info build_info package_dir
    let libs := scanned_debug_libs fs package_dir ++ scanned_release_libs fs package_dir
    match check_lib_architecture w pre_build_info.target_architecture libs with
    | Except.error e => Except.error e
    | Except.ok r_lib_arch =>
      let acc := step acc r_lib_arch
      if build_info.library_linkage = LinkageType.DYNAMIC then
        perform_dynamic_checks w fs toolset package_dir pre_build_info build_info acc
      else if build_info.library_linkage = LinkageType.STATIC then
        perform_static_checks w fs toolset package_dir build_info acc
      else Except.error VcpkgError.unreachable

def checks_run_spec (w : World) (spec : PackageSpec) (paths : VcpkgPaths)
    (pre_build_info : PreBuildInfo) (build_info : BuildInfo) :
    List TaggedResult × Option VcpkgError :=
  let fs := paths.fs
  let toolset := paths.toolset
  let package_dir := paths.package_dir spec
  if build_info.policies.is_enabled BuildPolicy.EMPTY_PACKAGE then ([], none)
  else
    let t := trace_prefix_checks fs spec paths pre_build_info build_info package_dir
    let libs := scanned_debug_libs fs package_dir ++ scanned_release_libs fs package_dir
    match check_lib_architecture w pre_build_info.target_architecture libs with
    | Except.error e => (t, some e)
    | Except.ok r_lib_arch =>
      let t := tstep t "check_lib_architecture" r_lib_arch
      if build_info.library_linkage = LinkageType.DYNAMIC then
        trace_dynamic_checks w fs toolset package_dir pre_build_info build_info t
      else if build_info.library_linkage = LinkageType.STATIC then
        trace_static_checks w fs toolset package_dir build_info t
      else (t, some VcpkgError.unreachable)

def perform_all_checks (w : World) (spec : PackageSpec) (paths : VcpkgPaths)
    (pre_build_info : PreBuildInfo) (build_info : BuildInfo) :
    Except VcpkgError (Nat × Diags) :=
  match perform_all_checks_and_return_error_count w spec paths pre_build_info build_info with
  | Except.error e => Except.error e
  | Except.ok (error_count, ds) =>
    let ds := "-- Performing post-build validation" :: ds
    let ds := if error_count ≠ 0 then
        ds ++ ["Found " ++ toString error_count ++
          " error(s). Please correct the portfile:\n    " ++
          ((paths.ports.child spec.name).child "portfile.cmake").generic_string]
      else ds
    Except.ok (error_count, ds ++ ["-- Performing post-build validation done"])

/-! ## Relating the accumulated error count to the trace of executed checks -/

/-- The arithmetic sum of the verdicts of a trace of executed checks: each
ERROR_DETECTED contributes 1 and each SUCCESS contributes 0. -/
def trace_error_count (t : List TaggedResult) : Nat :=
  (t.map (fun p => p.2.status.as_size_t)).sum

/-- The outcome a trace describes: the sum of the verdicts of the checks run
if no fatal error occurred, and the fatal error otherwise. -/
def trace_to_result (p : List TaggedResult × Option VcpkgError) : Except VcpkgError Nat :=
  match p with
  | (t, none) => Except.ok (trace_error_count t)
  | (_, some e) => Except.error e

theorem trace_error_count_nil : trace_error_count [] = 0 := rfl

theorem trace_error_count_tstep (t : List TaggedResult) (tag : String) (r : CheckResult) :
    trace_error_count (tstep t tag r) = trace_error_count t + r.status.as_size_t := by
  simp [trace_error_count, tstep]

theorem step_fst (acc : Nat × Diags) (r : CheckResult) :
    (step acc r).1 = acc.1 + r.status.as_size_t := rfl

theorem closing_checks_acc_fst (fs : Filesystem) (pd : Path) (acc : Nat × Diags) :
    (closing_checks_acc fs pd acc).1 =
      acc.1 + (check_no_empty_folders fs pd).status.as_size_t +
      (check_no_files_in_dir fs pd).status.as_size_t +
      (check_no_files_in_dir fs (pd.child "debug")).status.as_size_t := by
  simp [closing_checks_acc, step]

theorem trace_error_count_closing (fs : Filesystem) (pd : Path) (t : List TaggedResult) :
    trace_error_count (closing_checks_trace fs pd t) =
      trace_error_count t + (check_no_empty_folders fs pd).status.as_size_t +
      (check_no_files_in_dir fs pd).status.as_size_t +
      (check_no_files_in_dir fs (pd.child "debug")).status.as_size_t := by
  simp [closing_checks_trace, trace_error_count_tstep]

theorem perform_prefix_checks_eq (fs : Filesystem) (spec : PackageSpec)
    (paths : VcpkgPaths) (pre_build_info : PreBuildInfo) (build_info : BuildInfo)
    (package_dir : Path) :
    (perform_prefix_checks fs spec paths pre_build_info build_info package_dir).1 =
      trace_error_count (trace_prefix_checks fs spec paths pre_build_info build_info
        package_dir) := by
  simp only [perform_prefix_checks, trace_prefix_checks]
  split <;>
    simp [trace_error_count_tstep, step_fst, trace_error_count_nil]

theorem perform_dynamic_checks_eq (w : World) (fs : Filesystem) (toolset : Toolset)
    (package_dir : Path) (pre_build_info : PreBuildInfo) (build_info : BuildInfo)
    (acc : Nat × Diags) (t : List TaggedResult) (h : acc.1 = trace_error_count t) :
    (perform_dynamic_checks w fs toolset package_dir pre_build_info build_info acc).map
        Prod.fst =
      trace_to_result (trace_dynamic_checks w fs toolset package_dir pre_build_info
        build_info t) := by
  simp only [perform_dynamic_checks, trace_dynamic_checks]
  repeat' split
  all_goals (first
    | rfl
    | (simp [Except.map, trace_to_result, trace_error_count_tstep, trace_error_count_closing,
        closing_checks_acc_fst, step_fst]
       omega))

theorem perform_static_checks_eq (w : World) (fs : Filesystem) (toolset : Toolset)
    (package_dir : Path) (build_info : BuildInfo)
    (acc : Nat × Diags) (t : List TaggedResult) (h : acc.1 = trace_error_count t) :
    (perform_static_checks w fs toolset package_dir build_info acc).map Prod.fst =
      trace_to_result (trace_static_checks w fs toolset package_dir build_info t) := by
  simp only [perform_static_checks, trace_static_checks]
  repeat' split
  all_goals (first
    | rfl
    | (simp [Except.map, trace_to_result, trace_error_count_tstep, trace_error_count_closing,
        closing_checks_acc_fst, step_fst]
       omega))

/-- Helper: the error count the orchestrator accumulates equals the sum of
the verdicts along the trace of the checks that were run, and both abort
with the same fatal error. -/
theorem perform_inner_eq_checks_run_spec (w : World) (spec : PackageSpec)
    (paths : VcpkgPaths) (pre_build_info : PreBuildInfo) (build_info : BuildInfo) :
    (perform_all_checks_and_return_error_count w spec paths pre_build_info build_info).map
        Prod.fst =
      trace_to_result (checks_run_spec w spec paths pre_build_info build_info) := by
  simp only [perform_all_checks_and_return_error_count, checks_run_spec]
  split
  · simp [Except.map, trace_to_result, trace_error_count_nil]
  · split
    · rfl
    · split
      · exact perform_dynamic_checks_eq _ _ _ _ _ _ _ _
          (by simp [step_fst, trace_error_count_tstep, perform_prefix_checks_eq])
      · split
        · exact perform_static_checks_eq _ _ _ _ _ _ _
            (by simp [step_fst, trace_error_count_tstep, perform_prefix_checks_eq])
        · rfl

/-! ## Concrete fixtures used by witnesses and counterexamples -/

/-- A filesystem with no files at all. -/
def emptyFS : Filesystem :=
  ⟨fun _ => false, fun _ => false, fun _ => true, fun _ => [], fun _ => []⟩

/-- A world whose tool invocations all succeed with empty output. -/
def okWorld : World :=
  ⟨fun _ => ⟨0, ""⟩, fun _ => ⟨MachineType.AMD64⟩, fun _ => ⟨[MachineType.AMD64]⟩⟩

/-- A world whose tool invocations all fail: any invocation would abort the
run, so a SUCCESS result witnesses that the tool was never consulted. -/
def hostileWorld : World :=
  ⟨fun _ => ⟨1, ""⟩, fun _ => ⟨MachineType.I386⟩, fun _ => ⟨[]⟩⟩

def noToolset : Toolset := ⟨⟨[]⟩⟩

def basePaths : VcpkgPaths :=
  ⟨emptyFS, noToolset, ⟨["packages"]⟩, ⟨["buildtrees"]⟩, ⟨["ports"]⟩⟩

def baseSpec : PackageSpec := ⟨"zlib", "x64-windows"⟩

def basePre : PreBuildInfo := ⟨"x64", none, none, "Windows"⟩

/-! ## Claim theorems -/

/-- Claim C3: get_outdated_dynamic_crts returns the historical list exactly
for the present toolset version "v120" and the superset list for every other
input including an absent version; by name the superset list extends the
historical list by exactly the four later-generation entries, none of which
occurs in the historical list. -/
theorem C3_outdated_crt_lookup (toolset_version : Option String) :
    (toolset_version = some "v120" → get_outdated_dynamic_crts toolset_version = V_NO_120) ∧
    (toolset_version ≠ some "v120" → get_outdated_dynamic_crts toolset_version = V_NO_MSVCRT) ∧
    V_NO_MSVCRT.map OutdatedDynamicCrt.name =
      V_NO_120.map OutdatedDynamicCrt.name ++
        ["msvcp120.dll", "msvcp120_clr0400.dll", "msvcr120.dll", "msvcr120_clr0400.dll"] ∧
    (∀ n ∈ ["msvcp120.dll", "msvcp120_clr0400.dll", "msvcr120.dll", "msvcr120_clr0400.dll"],
      n ∉ V_NO_120.map OutdatedDynamicCrt.name) := by
  refine ⟨?_, ?_, by decide, by decide⟩
  · intro h
    subst h
    rfl
  · intro h
    cases toolset_version with
    | none => rfl
    | some tsv =>
      have htsv : tsv ≠ "v120" := by
        intro he
        exact h (by rw [he])
      simp [get_outdated_dynamic_crts, htsv]

/-- Witness for C3 at the concrete toolset versions "v120", "v141" and the
absent version. -/
theorem C3_outdated_crt_lookup_witness :
    get_outdated_dynamic_crts (some "v120") = V_NO_120 ∧
    get_outdated_dynamic_crts (some "v141") = V_NO_MSVCRT ∧
    get_outdated_dynamic_crts none = V_NO_MSVCRT :=
  ⟨(C3_outdated_crt_lookup (some "v120")).1 rfl,
   (C3_outdated_crt_lookup (some "v141")).2.1 (by decide),
   (C3_outdated_crt_lookup none).2.1 (by decide)⟩

/-- Claim C10: when the expected system name is not "WindowsStore",
check_uwp_bit_of_dlls returns SUCCESS with no diagnostics for every input
dll list and every world - including a world in which any tool invocation
would abort the run, so the tool is never consulted. -/
theorem C10_uwp_check_only_for_windows_store (w : World) (expected_system_name : String)
    (dlls : List Path) (dumpbin_exe : Path) (h : expected_system_name ≠ "WindowsStore") :
    check_uwp_bit_of_dlls w expected_system_name dlls dumpbin_exe =
      Except.ok ⟨LintStatus.SUCCESS, []⟩ := by
  simp [check_uwp_bit_of_dlls, h]

/-- Witness for C10: a non-empty dll list, a system name other than
WindowsStore, and the world in which every tool invocation fails. -/
theorem C10_uwp_check_only_for_windows_store_witness :
    ("Linux" : String) ≠ "WindowsStore" ∧
    check_uwp_bit_of_dlls hostileWorld "Linux" [⟨["pkg", "bin", "a.dll"]⟩] ⟨["dumpbin.exe"]⟩ =
      Except.ok ⟨LintStatus.SUCCESS, []⟩ :=
  ⟨by decide,
   C10_uwp_check_only_for_windows_store hostileWorld "Linux" [⟨["pkg", "bin", "a.dll"]⟩]
     ⟨["dumpbin.exe"]⟩ (by decide)⟩

/-- Claim C6: with the empty-package policy enabled the orchestrator returns
the error count 0 with no diagnostics, and the trace of executed checks is
empty - no individual check is run. -/
theorem C6_empty_package_policy_suppresses_suite (w : World) (spec : PackageSpec)
    (paths : VcpkgPaths) (pre_build_info : PreBuildInfo) (build_info : BuildInfo)
    (h : build_info.policies.is_enabled BuildPolicy.EMPTY_PACKAGE = true) :
    perform_all_checks_and_return_error_count w spec paths pre_build_info build_info =
      Except.ok (0, []) ∧
    checks_run_spec w spec paths pre_build_info build_info = ([], none) := by
  constructor <;>
    simp [perform_all_checks_and_return_error_count, checks_run_spec, h]

/-- Witness for C6 at a concrete package whose empty-package policy is
enabled. -/
theorem C6_empty_package_policy_suppresses_suite_witness :
    perform_all_checks_and_return_error_count okWorld baseSpec basePaths basePre
        ⟨LinkageType.DYNAMIC, LinkageType.DYNAMIC, ⟨[BuildPolicy.EMPTY_PACKAGE]⟩⟩ =
      Except.ok (0, []) ∧
    checks_run_spec okWorld baseSpec basePaths basePre
        ⟨LinkageType.DYNAMIC, LinkageType.DYNAMIC, ⟨[BuildPolicy.EMPTY_PACKAGE]⟩⟩ =
      ([], none) :=
  C6_empty_package_policy_suppresses_suite okWorld baseSpec basePaths basePre
    ⟨LinkageType.DYNAMIC, LinkageType.DYNAMIC, ⟨[BuildPolicy.EMPTY_PACKAGE]⟩⟩ (by decide)

/-- Claim C1: the value returned by perform_all_checks is exactly the
arithmetic sum, over the checks that were run, of their verdicts - each
ERROR_DETECTED contributing 1 and each SUCCESS contributing 0, irrespective
of the diagnostics or the number of implicated files - and a run aborted by
a fatal error returns no count at all. -/
theorem C1_error_count_is_sum_of_verdicts (w : World) (spec : PackageSpec)
    (paths : VcpkgPaths) (pre_build_info : PreBuildInfo) (build_info : BuildInfo) :
    (perform_all_checks w spec paths pre_build_info build_info).map Prod.fst =
      trace_to_result (checks_run_spec w spec paths pre_build_info build_info) := by
  rw [← perform_inner_eq_checks_run_spec w spec paths pre_build_info build_info]
  unfold perform_all_checks
  cases perform_all_checks_and_return_error_count w spec paths pre_build_info build_info with
  | error e => rfl
  | ok p =>
    cases p with
    | mk c ds => simp [Except.map]

/-- The call-site tags the shared leading block can put on the trace. -/
def prefix_base_tags : List String :=
  ["check_for_files_in_include_directory", "check_for_files_in_debug_include_directory",
   "check_for_files_in_debug_share_directory", "check_folder_lib_cmake",
   "check_for_misplaced_cmake_files", "check_folder_debug_lib_cmake",
   "check_for_dlls_in_lib_dir", "check_for_dlls_in_lib_dir(debug)",
   "check_for_copyright_file", "check_for_exes", "check_for_exes(debug)"]

theorem trace_prefix_checks_no_tag (s : String) (fs : Filesystem) (spec : PackageSpec)
    (paths : VcpkgPaths) (pre_build_info : PreBuildInfo) (build_info : BuildInfo)
    (package_dir : Path) (bt : ConfigurationType) (hs : s ∉ prefix_base_tags)
    (hn : pre_build_info.build_type = some bt) :
    s ∉ (trace_prefix_checks fs spec paths pre_build_info build_info package_dir).map
      Prod.fst := by
  simp [prefix_base_tags] at hs
  simp_all [trace_prefix_checks, tstep, hn]

/-- The call-site tags the DYNAMIC branch and the closing checks can put on
the trace when no declared build type is present is larger by the matching
check; with a declared build type the matching check is not among them. -/
def dynamic_tags : List String :=
  ["check_lib_files_are_available_if_dlls_are_available(debug)",
   "check_lib_files_are_available_if_dlls_are_available(release)",
   "check_exports_of_dlls", "check_uwp_bit_of_dlls", "check_outdated_crt_linkage_of_dlls",
   "check_dll_architecture", "check_no_empty_folders", "check_no_files_in_dir",
   "check_no_files_in_dir(debug)"]

theorem trace_dynamic_checks_no_tag (s : String) (w : World) (fs : Filesystem)
    (toolset : Toolset) (package_dir : Path) (pre_build_info : PreBuildInfo)
    (build_info : BuildInfo) (t : List TaggedResult) (bt : ConfigurationType)
    (hs : s ∉ dynamic_tags) (hn : pre_build_info.build_type = some bt)
    (ht : s ∉ t.map Prod.fst) :
    s ∉ (trace_dynamic_checks w fs toolset package_dir pre_build_info build_info t).1.map
      Prod.fst := by
  simp [dynamic_tags] at hs
  simp only [trace_dynamic_checks, hn, Option.isNone_some, Bool.false_eq_true, if_false]
  repeat' split
  all_goals simp_all [closing_checks_trace, tstep]

def static_tags : List String :=
  ["check_no_dlls_present", "check_bin_folders_are_not_present_in_static_build",
   "check_crt_linkage_of_libs(debug)", "check_crt_linkage_of_libs(release)",
   "check_no_empty_folders", "check_no_files_in_dir", "check_no_files_in_dir(debug)"]

theorem trace_static_checks_no_tag (s : String) (w : World) (fs : Filesystem)
    (toolset : Toolset) (package_dir : Path) (build_info : BuildInfo)
    (t : List TaggedResult) (hs : s ∉ static_tags) (ht : s ∉ t.map Prod.fst) :
    s ∉ (trace_static_checks w fs toolset package_dir build_info t).1.map Prod.fst := by
  simp [static_tags] at hs
  simp only [trace_static_checks]
  repeat' split
  all_goals simp_all [closing_checks_trace, tstep]

/-- Helper: a tag that no segment of the orchestrator uses while a build
type is declared never appears in the trace of executed checks. -/
theorem checks_run_spec_no_tag (s : String) (w : World) (spec : PackageSpec)
    (paths : VcpkgPaths) (pre_build_info : PreBuildInfo) (build_info : BuildInfo)
    (bt : ConfigurationType) (hp : s ∉ prefix_base_tags) (hd : s ∉ dynamic_tags)
    (hst : s ∉ static_tags) (hla : s ≠ "check_lib_architecture")
    (h : pre_build_info.build_type = some bt) :
    s ∉ (checks_run_spec w spec paths pre_build_info build_info).1.map Prod.fst := by
  have hpre := trace_prefix_checks_no_tag s paths.fs spec paths pre_build_info build_info
    (paths.package_dir spec) bt hp h
  simp only [checks_run_spec]
  split
  · simp
  · split
    · exact hpre
    · have hstep : ∀ r : CheckResult,
          s ∉ (tstep (trace_prefix_checks paths.fs spec paths pre_build_info build_info
            (paths.package_dir spec)) "check_lib_architecture" r).map Prod.fst := by
        intro r
        simp [tstep, hla, hpre]
      split
      · exact trace_dynamic_checks_no_tag s w paths.fs paths.toolset
          (paths.package_dir spec) pre_build_info build_info _ bt hd h (hstep _)
      · split
        · exact trace_static_checks_no_tag s w paths.fs paths.toolset
            (paths.package_dir spec) build_info _ hst (hstep _)
        · exact hstep _

/-- Claim C5: check_matching_debug_and_release_binaries returns
ERROR_DETECTED exactly when the two list sizes differ, in which case its
message cites the two literal counts; and whenever the build declares an
explicit build type, neither the lib nor the dll instance of this check is
among the checks the orchestrator runs. -/
theorem C5_matching_binaries_check (debug_binaries release_binaries : List Path)
    (w : World) (spec : PackageSpec) (paths : VcpkgPaths) (pre_build_info : PreBuildInfo)
    (build_info : BuildInfo) (bt : ConfigurationType)
    (h : pre_build_info.build_type = some bt) :
    ((check_matching_debug_and_release_binaries debug_binaries release_binaries).status =
        LintStatus.ERROR_DETECTED ↔ debug_binaries.length ≠ release_binaries.length) ∧
    (debug_binaries.length ≠ release_binaries.length →
      ("Mismatching number of debug and release binaries. Found " ++
        toString debug_binaries.length ++ " for debug but " ++
        toString release_binaries.length ++ " for release.") ∈
        (check_matching_debug_and_release_binaries debug_binaries release_binaries).diags) ∧
    "check_matching_debug_and_release_binaries(libs)" ∉
      (checks_run_spec w spec paths pre_build_info build_info).1.map Prod.fst ∧
    "check_matching_debug_and_release_binaries(dlls)" ∉
      (checks_run_spec w spec paths pre_build_info build_info).1.map Prod.fst := by
  refine ⟨?_, ?_, ?_, ?_⟩
  · simp only [check_matching_debug_and_release_binaries]
    split
    · next hc => simp [hc]
    · next hc => simp [hc]
  · intro hne
    simp only [check_matching_debug_and_release_binaries]
    split
    · next hc => exact absurd hc hne
    · simp
  · exact checks_run_spec_no_tag _ w spec paths pre_build_info build_info bt
      (by decide) (by decide) (by decide) (by decide) h
  · exact checks_run_spec_no_tag _ w spec paths pre_build_info build_info bt
      (by decide) (by decide) (by decide) (by decide) h

def biDyn : BuildInfo := ⟨LinkageType.DYNAMIC, LinkageType.DYNAMIC, ⟨[]⟩⟩

def basePreRelease : PreBuildInfo := ⟨"x64", none, some ConfigurationType.RELEASE, "Windows"⟩

/-- Witness for C5: one debug binary against zero release binaries yields
ERROR_DETECTED with the counts 1 and 0 cited literally, and a build with a
declared build type runs neither matching-check instance. -/
theorem C5_matching_binaries_check_witness :
    (check_matching_debug_and_release_binaries [⟨["d.lib"]⟩] ([] : List Path)).status =
      LintStatus.ERROR_DETECTED ∧
    "Mismatching number of debug and release binaries. Found 1 for debug but 0 for release." ∈
      (check_matching_debug_and_release_binaries [⟨["d.lib"]⟩] ([] : List Path)).diags ∧
    "check_matching_debug_and_release_binaries(libs)" ∉
      (checks_run_spec okWorld baseSpec basePaths basePreRelease biDyn).1.map Prod.fst ∧
    "check_matching_debug_and_release_binaries(dlls)" ∉
      (checks_run_spec okWorld baseSpec basePaths basePreRelease biDyn).1.map Prod.fst := by
  obtain ⟨h1, h2, h3, h4⟩ := C5_matching_binaries_check [⟨["d.lib"]⟩] [] okWorld baseSpec
    basePaths basePreRelease biDyn ConfigurationType.RELEASE rfl
  exact ⟨h1.mpr (by decide), by simpa using h2 (by decide), h3, h4⟩

/-- Helper: the DYNAMIC branch always runs the import-library check on the
debug pair and on the release pair, whatever else happens later. -/
theorem trace_dynamic_checks_mem_lib_files (w : World) (fs : Filesystem) (toolset : Toolset)
    (package_dir : Path) (pre_build_info : PreBuildInfo) (build_info : BuildInfo)
    (t : List TaggedResult) :
    ("check_lib_files_are_available_if_dlls_are_available(debug)",
      check_lib_files_are_available_if_dlls_are_available build_info.policies
        (scanned_debug_libs fs package_dir).length (scanned_debug_dlls fs package_dir).length
        ((package_dir.child "debug").child "lib")) ∈
      (trace_dynamic_checks w fs toolset package_dir pre_build_info build_info t).1 ∧
    ("check_lib_files_are_available_if_dlls_are_available(release)",
      check_lib_files_are_available_if_dlls_are_available build_info.policies
        (scanned_release_libs fs package_dir).length
        (scanned_release_dlls fs package_dir).length (package_dir.child "lib")) ∈
      (trace_dynamic_checks w fs toolset package_dir pre_build_info build_info t).1 := by
  simp only [trace_dynamic_checks]
  repeat' split
  all_goals constructor <;> simp [closing_checks_trace, tstep]

/-- Claim C7: for a dynamic-linkage package, with the dlls-without-libs
policy disabled, check_lib_files_are_available_if_dlls_are_available returns
ERROR_DETECTED exactly when the lib count is zero while the dll count is
nonzero, and its message cites the library directory path; and the
orchestrator applies this check separately to the debug pair and to the
release pair. -/
theorem C7_import_libs_required (policies : BuildPolicies) (lib_count dll_count : Nat)
    (lib_dir : Path) (w : World) (spec : PackageSpec) (paths : VcpkgPaths)
    (pre_build_info : PreBuildInfo) (build_info : BuildInfo) (r_lib_arch : CheckResult)
    (hpol : policies.is_enabled BuildPolicy.DLLS_WITHOUT_LIBS = false)
    (hne : build_info.policies.is_enabled BuildPolicy.EMPTY_PACKAGE = false)
    (hdyn : build_info.library_linkage = LinkageType.DYNAMIC)
    (hok : check_lib_architecture w pre_build_info.target_architecture
      (scanned_debug_libs paths.fs (paths.package_dir spec) ++
        scanned_release_libs paths.fs (paths.package_dir spec)) = Except.ok r_lib_arch) :
    (((check_lib_files_are_available_if_dlls_are_available policies lib_count dll_count
        lib_dir).status = LintStatus.ERROR_DETECTED) ↔ (lib_count = 0 ∧ dll_count ≠ 0)) ∧
    (lib_count = 0 ∧ dll_count ≠ 0 →
      ("Import libs were not present in " ++ lib_dir.u8string) ∈
        (check_lib_files_are_available_if_dlls_are_available policies lib_count dll_count
          lib_dir).diags) ∧
    ("check_lib_files_are_available_if_dlls_are_available(debug)",
      check_lib_files_are_available_if_dlls_are_available build_info.policies
        (scanned_debug_libs paths.fs (paths.package_dir spec)).length
        (scanned_debug_dlls paths.fs (paths.package_dir spec)).length
        (((paths.package_dir spec).child "debug").child "lib")) ∈
      (checks_run_spec w spec paths pre_build_info build_info).1 ∧
    ("check_lib_files_are_available_if_dlls_are_available(release)",
      check_lib_files_are_available_if_dlls_are_available build_info.policies
        (scanned_release_libs paths.fs (paths.package_dir spec)).length
        (scanned_release_dlls paths.fs (paths.package_dir spec)).length
        ((paths.package_dir spec).child "lib")) ∈
      (checks_run_spec w spec paths pre_build_info build_info).1 := by
  have hmem := trace_dynamic_checks_mem_lib_files w paths.fs paths.toolset
    (paths.package_dir spec) pre_build_info build_info
    (tstep (trace_prefix_checks paths.fs spec paths pre_build_info build_info
      (paths.package_dir spec)) "check_lib_architecture" r_lib_arch)
  refine ⟨?_, ?_, ?_, ?_⟩
  · simp only [check_lib_files_are_available_if_dlls_are_available, hpol,
      Bool.false_eq_true, if_false]
    split
    · next hc => simp [hc]
    · next hc => simp [hc]
  · intro hc
    simp only [check_lib_files_are_available_if_dlls_are_available, hpol,
      Bool.false_eq_true, if_false, if_pos hc]
    simp
  · simp only [checks_run_spec, hne, hok, hdyn]
    simp [hmem.1]
  · simp only [checks_run_spec, hne, hok, hdyn]
    simp [hmem.2]

/-- Witness for C7: zero import libs against one dll, policy disabled, yields
ERROR_DETECTED citing the library directory; and a concrete dynamic-linkage
run contains both the debug and the release instance of the check. -/
theorem C7_import_libs_required_witness :
    (check_lib_files_are_available_if_dlls_are_available ⟨[]⟩ 0 1
      ⟨["pkg", "debug", "lib"]⟩).status = LintStatus.ERROR_DETECTED ∧
    "Import libs were not present in pkg/debug/lib" ∈
      (check_lib_files_are_available_if_dlls_are_available ⟨[]⟩ 0 1
        ⟨["pkg", "debug", "lib"]⟩).diags ∧
    ("check_lib_files_are_available_if_dlls_are_available(debug)",
      check_lib_files_are_available_if_dlls_are_available biDyn.policies
        (scanned_debug_libs basePaths.fs (basePaths.package_dir baseSpec)).length
        (scanned_debug_dlls basePaths.fs (basePaths.package_dir baseSpec)).length
        (((basePaths.package_dir baseSpec).child "debug").child "lib")) ∈
      (checks_run_spec okWorld baseSpec basePaths basePre biDyn).1 ∧
    ("check_lib_files_are_available_if_dlls_are_available(release)",
      check_lib_files_are_available_if_dlls_are_available biDyn.policies
        (scanned_release_libs basePaths.fs (basePaths.package_dir baseSpec)).length
        (scanned_release_dlls basePaths.fs (basePaths.package_dir baseSpec)).length
        ((basePaths.package_dir baseSpec).child "lib")) ∈
      (checks_run_spec okWorld baseSpec basePaths basePre biDyn).1 := by
  obtain ⟨h1, h2, h3, h4⟩ := C7_import_libs_required ⟨[]⟩ 0 1 ⟨["pkg", "debug", "lib"]⟩
    okWorld baseSpec basePaths basePre biDyn ⟨LintStatus.SUCCESS, []⟩ (by decide) (by decide)
    rfl rfl
  exact ⟨h1.mpr (by decide), by decide, h3, h4⟩

/-! ## Claim C9: the debug-include check -/

def pkg9 : Path := ⟨["packages", "q_x64"]⟩

def dbgIncFile : Path := ⟨["packages", "q_x64", "debug", "include", "unique.h"]⟩

/-- A package tree whose only file anywhere is debug/include/unique.h; in
particular that file duplicates no include file found elsewhere. -/
def fs9 : Filesystem :=
  { exists_p := fun _ => false
    is_directory := fun _ => false
    is_empty := fun _ => false
    get_files_recursive := fun d =>
      if d = ⟨["packages", "q_x64", "debug", "include"]⟩ then [dbgIncFile]
      else if d = pkg9 then [dbgIncFile]
      else []
    get_files_non_recursive := fun _ => [] }

/-- Counterexample for C9: the check reports a violation for the package in
which debug/include/unique.h is the only file of the whole tree - there is
no duplicated include file anywhere, the name unique.h occurs exactly once,
yet the verdict is ERROR_DETECTED. -/
theorem C9_counterexample :
    check_for_files_in_debug_include_directory fs9 pkg9 =
      ⟨LintStatus.ERROR_DETECTED,
       ["Include files should not be duplicated into the /debug/include directory. If this cannot be disabled in the project cmake, use\n    file(REMOVE_RECURSE ${CURRENT_PACKAGES_DIR}/debug/include)"]⟩ ∧
    (fs9.get_files_recursive pkg9).filter (fun f => f.filename == "unique.h") = [dbgIncFile] ∧
    dbgIncFile = ⟨["packages", "q_x64", "debug", "include", "unique.h"]⟩ := by
  refine ⟨?_, by decide, rfl⟩
  rfl

/-- Claim C9 as amended: the debug-include check reports a violation exactly
when some non-directory file with an extension other than .ifc exists under
the debug/include directory, irrespective of whether it duplicates a file
found elsewhere in the package; otherwise the verdict is SUCCESS. -/
theorem C9_debug_include_check_amended (fs : Filesystem) (package_dir : Path) :
    (check_for_files_in_debug_include_directory fs package_dir).status =
        LintStatus.ERROR_DETECTED ↔
      ∃ f ∈ fs.get_files_recursive ((package_dir.child "debug").child "include"),
        fs.is_directory f = false ∧ f.extension ≠ ".ifc" := by
  simp only [check_for_files_in_debug_include_directory, unstable_keep_if]
  split
  · next hc =>
    simp only [Bool.not_eq_true', List.isEmpty_eq_false_iff_exists_mem] at hc
    obtain ⟨f, hf⟩ := hc
    simp only [List.mem_filter, Bool.and_eq_true, Bool.not_eq_true'] at hf
    simp only [true_iff]
    refine ⟨f, hf.1, hf.2.1, ?_⟩
    have := hf.2.2
    simp only [Bool.not_eq_true', beq_eq_false_iff_ne, ne_eq] at this
    exact this
  · next hc =>
    simp only [Bool.not_eq_true] at hc
    constructor
    · intro habs
      exact absurd habs (by decide)
    · rintro ⟨f, hmem, hdir, hext⟩
      have hin : f ∈ List.filter
          (fun path => !fs.is_directory path && !(path.extension == ".ifc"))
          (fs.get_files_recursive ((package_dir.child "debug").child "include")) := by
        simp [List.mem_filter, hmem, hdir, hext]
      simp_all [List.isEmpty_iff]

/-! ## Claim C4: the architecture checks -/

/-- Specification form of the mismatched artifacts of a dll list: each file
whose derived architecture differs from the expected one, with that derived
architecture. -/
def invalid_dlls_spec (w : World) (expected_architecture : String) (files : List Path) :
    List FileAndArch :=
  files.filterMap (fun f =>
    let actual := get_actual_architecture (w.read_dll f).machine_type
    if expected_architecture ≠ actual then some ⟨f, actual⟩ else none)

theorem check_dll_architecture_loop_eq (w : World) (arch : String) (files : List Path)
    (hext : ∀ f ∈ files, f.extension = ".dll") :
    check_dll_architecture_loop w arch files = Except.ok (invalid_dlls_spec w arch files) := by
  induction files with
  | nil => rfl
  | cons f rest ih =>
    have hf : f.extension = ".dll" := hext f (by simp)
    have hr : ∀ g ∈ rest, g.extension = ".dll" := fun g hg => hext g (by simp [hg])
    simp only [check_dll_architecture_loop, hf, invalid_dlls_spec, List.filterMap_cons]
    rw [ih hr]
    by_cases hc : arch = get_actual_architecture (w.read_dll f).machine_type <;>
      simp [hc, invalid_dlls_spec]

/-- Specification form of the mismatched artifacts of a lib list, defined
for archives reporting exactly one machine type. -/
def invalid_libs_spec (w : World) (expected_architecture : String) (files : List Path) :
    List FileAndArch :=
  files.filterMap (fun f =>
    match (w.read_lib f).machine_types with
    | [mt] =>
      let actual := get_actual_architecture mt
      if expected_architecture ≠ actual then some ⟨f, actual⟩ else none
    | _ => none)

theorem check_lib_architecture_loop_eq (w : World) (arch : String) (files : List Path)
    (hext : ∀ f ∈ files, f.extension = ".lib")
    (hone : ∀ f ∈ files, ∃ mt, (w.read_lib f).machine_types = [mt]) :
    check_lib_architecture_loop w arch files =
      Except.ok (some (invalid_libs_spec w arch files)) := by
  induction files with
  | nil => rfl
  | cons f rest ih =>
    have hf : f.extension = ".lib" := hext f (by simp)
    obtain ⟨mt, hmt⟩ := hone f (by simp)
    have hr : ∀ g ∈ rest, g.extension = ".lib" := fun g hg => hext g (by simp [hg])
    have ho : ∀ g ∈ rest, ∃ m, (w.read_lib g).machine_types = [m] :=
      fun g hg => hone g (by simp [hg])
    simp only [check_lib_architecture_loop, hf, hmt, invalid_libs_spec, List.filterMap_cons]
    rw [ih hr ho]
    by_cases hc : arch = get_actual_architecture mt <;> simp [hc, invalid_libs_spec, hmt]

/-- The early whole-check SUCCESS return: a zero-machine-type archive makes
the loop discard everything and answer none, whatever follows it. -/
theorem check_lib_architecture_loop_zero (w : World) (arch : String) (pref : List Path)
    (f : Path) (suff : List Path)
    (hpext : ∀ g ∈ pref, g.extension = ".lib")
    (hpone : ∀ g ∈ pref, ∃ mt, (w.read_lib g).machine_types = [mt])
    (hfext : f.extension = ".lib") (hzero : (w.read_lib f).machine_types = []) :
    check_lib_architecture_loop w arch (pref ++ f :: suff) = Except.ok none := by
  induction pref with
  | nil => simp [check_lib_architecture_loop, hfext, hzero]
  | cons g rest ih =>
    have hg : g.extension = ".lib" := hpext g (by simp)
    obtain ⟨mt, hmt⟩ := hpone g (by simp)
    have hr : ∀ x ∈ rest, x.extension = ".lib" := fun x hx => hpext x (by simp [hx])
    have ho : ∀ x ∈ rest, ∃ m, (w.read_lib x).machine_types = [m] :=
      fun x hx => hpone x (by simp [hx])
    simp [List.cons_append, check_lib_architecture_loop, hg, hmt, ih hr ho]

/-- With every extension right, check_dll_architecture answers exactly the
verdict and diagnostics determined by its mismatched-artifact list. -/
theorem check_dll_architecture_eq (w : World) (arch : String) (files : List Path)
    (hext : ∀ f ∈ files, f.extension = ".dll") :
    check_dll_architecture w arch files =
      Except.ok (if (invalid_dlls_spec w arch files).isEmpty then ⟨LintStatus.SUCCESS, []⟩
        else ⟨LintStatus.ERROR_DETECTED,
          print_invalid_architecture_files arch (invalid_dlls_spec w arch files)⟩) := by
  rw [check_dll_architecture, check_dll_architecture_loop_eq w arch files hext]
  by_cases hne : (invalid_dlls_spec w arch files).isEmpty <;> simp [hne]

theorem check_lib_architecture_eq (w : World) (arch : String) (files : List Path)
    (hext : ∀ f ∈ files, f.extension = ".lib")
    (hone : ∀ f ∈ files, ∃ mt, (w.read_lib f).machine_types = [mt]) :
    check_lib_architecture w arch files =
      Except.ok (if (invalid_libs_spec w arch files).isEmpty then ⟨LintStatus.SUCCESS, []⟩
        else ⟨LintStatus.ERROR_DETECTED,
          print_invalid_architecture_files arch (invalid_libs_spec w arch files)⟩) := by
  rw [check_lib_architecture, check_lib_architecture_loop_eq w arch files hext hone]
  by_cases hne : (invalid_libs_spec w arch files).isEmpty <;> simp [hne]

/-- An entry of the mismatched-artifact list puts its indented path line
into the printed violation detail. -/
theorem mem_print_invalid_architecture_files (arch : String) (l : List FileAndArch)
    (b : FileAndArch) (hb : b ∈ l) :
    ("    " ++ b.file.generic_string) ∈ print_invalid_architecture_files arch l := by
  unfold print_invalid_architecture_files
  refine List.mem_append.mpr (Or.inr ?_)
  refine List.mem_flatMap.mpr ⟨b, hb, ?_⟩
  simp

/-- Claim C4 as amended. For check_dll_architecture the property holds as
stated: every artifact whose derived architecture differs from the declared
one appears in the violation detail, and if all match the verdict is
SUCCESS with no diagnostics. For check_lib_architecture it holds provided
every archive reports exactly one machine type; an archive reporting zero
machine types instead makes the whole check return SUCCESS immediately,
leaving every remaining artifact unexamined (rather than only that archive
being skipped). -/
theorem C4_architecture_checks_amended :
    (∀ (w : World) (arch : String) (files : List Path),
      (∀ f ∈ files, f.extension = ".dll") →
      ∃ r, check_dll_architecture w arch files = Except.ok r ∧
        (∀ f ∈ files, get_actual_architecture (w.read_dll f).machine_type ≠ arch →
          ("    " ++ f.generic_string) ∈ r.diags) ∧
        ((∀ f ∈ files, get_actual_architecture (w.read_dll f).machine_type = arch) →
          r = ⟨LintStatus.SUCCESS, []⟩)) ∧
    (∀ (w : World) (arch : String) (files : List Path),
      (∀ f ∈ files, f.extension = ".lib") →
      (∀ f ∈ files, ∃ mt, (w.read_lib f).machine_types = [mt]) →
      ∃ r, check_lib_architecture w arch files = Except.ok r ∧
        (∀ f ∈ files, ∀ mt, (w.read_lib f).machine_types = [mt] →
          get_actual_architecture mt ≠ arch → ("    " ++ f.generic_string) ∈ r.diags) ∧
        ((∀ f ∈ files, ∀ mt, (w.read_lib f).machine_types = [mt] →
          get_actual_architecture mt = arch) → r = ⟨LintStatus.SUCCESS, []⟩)) ∧
    (∀ (w : World) (arch : String) (pref : List Path) (f : Path) (suff : List Path),
      (∀ g ∈ pref, g.extension = ".lib") →
      (∀ g ∈ pref, ∃ mt, (w.read_lib g).machine_types = [mt]) →
      f.extension = ".lib" → (w.read_lib f).machine_types = [] →
      check_lib_architecture w arch (pref ++ f :: suff) =
        Except.ok ⟨LintStatus.SUCCESS, []⟩) := by
  refine ⟨?_, ?_, ?_⟩
  · intro w arch files hext
    refine ⟨_, check_dll_architecture_eq w arch files hext, ?_, ?_⟩
    · intro f hf hmism
      have hmem : (⟨f, get_actual_architecture (w.read_dll f).machine_type⟩ : FileAndArch) ∈
          invalid_dlls_spec w arch files := by
        simp only [invalid_dlls_spec, List.mem_filterMap]
        exact ⟨f, hf, by simp [Ne.symm hmism]⟩
      have hne : (invalid_dlls_spec w arch files).isEmpty = false := by
        rcases he : invalid_dlls_spec w arch files with _ | ⟨x, xs⟩
        · rw [he] at hmem
          cases hmem
        · rfl
      simp only [hne, Bool.false_eq_true, if_false]
      exact mem_print_invalid_architecture_files arch _ _ hmem
    · intro hall
      have hnil : invalid_dlls_spec w arch files = [] := by
        simp only [invalid_dlls_spec, List.filterMap_eq_nil_iff]
        intro f hf
        simp [hall f hf]
      simp [hnil]
  · intro w arch files hext hone
    refine ⟨_, check_lib_architecture_eq w arch files hext hone, ?_, ?_⟩
    · intro f hf mt hmt hmism
      have hmem : (⟨f, get_actual_architecture mt⟩ : FileAndArch) ∈
          invalid_libs_spec w arch files := by
        simp only [invalid_libs_spec, List.mem_filterMap]
        exact ⟨f, hf, by simp [hmt, Ne.symm hmism]⟩
      have hne : (invalid_libs_spec w arch files).isEmpty = false := by
        rcases he : invalid_libs_spec w arch files with _ | ⟨x, xs⟩
        · rw [he] at hmem
          cases hmem
        · rfl
      simp only [hne, Bool.false_eq_true, if_false]
      exact mem_print_invalid_architecture_files arch _ _ hmem
    · intro hall
      have hnil : invalid_libs_spec w arch files = [] := by
        simp only [invalid_libs_spec, List.filterMap_eq_nil_iff]
        intro f hf
        obtain ⟨mt, hmt⟩ := hone f hf
        simp [hmt, hall f hf mt hmt]
      simp [hnil]
  · intro w arch pref f suff hpext hpone hfext hzero
    rw [check_lib_architecture,
      check_lib_architecture_loop_zero w arch pref f suff hpext hpone hfext hzero]

def libZero4 : Path := ⟨["pkg", "lib", "z.lib"]⟩

def libMism4 : Path := ⟨["pkg", "lib", "m.lib"]⟩

/-- A world in which the archive z.lib reports zero machine types and every
other archive reports exactly the one machine type I386. -/
def w4 : World :=
  ⟨fun _ => ⟨0, ""⟩, fun _ => ⟨MachineType.AMD64⟩,
   fun p => if p = libZero4 then ⟨[]⟩ else ⟨[MachineType.I386]⟩⟩

/-- Counterexample for C4: in the list z.lib, m.lib - where z.lib reports
zero machine types and m.lib derives the architecture x86, different from
the declared x64 - the whole check answers SUCCESS with no violation
detail, so the mismatched artifact m.lib appears nowhere. -/
theorem C4_counterexample :
    check_lib_architecture w4 "x64" [libZero4, libMism4] =
      Except.ok ⟨LintStatus.SUCCESS, []⟩ ∧
    (w4.read_lib libMism4).machine_types = [MachineType.I386] ∧
    get_actual_architecture MachineType.I386 = "x86" ∧ ("x86" : String) ≠ "x64" := by
  refine ⟨by rfl, by decide, by decide, by decide⟩

/-- Witness for C4 as amended: a mismatched dll appears in the violation
detail, a mismatched single-architecture archive appears in the violation
detail, and a zero-machine-type archive makes the check answer SUCCESS even
with a mismatched archive after it. -/
theorem C4_architecture_checks_amended_witness :
    (∃ r, check_dll_architecture w4 "arm" [⟨["pkg", "bin", "d.dll"]⟩] = Except.ok r ∧
      ("    " ++ (⟨["pkg", "bin", "d.dll"]⟩ : Path).generic_string) ∈ r.diags) ∧
    (∃ r, check_lib_architecture w4 "x64" [libMism4] = Except.ok r ∧
      ("    " ++ libMism4.generic_string) ∈ r.diags) ∧
    check_lib_architecture w4 "x64" ([] ++ libZero4 :: [libMism4]) =
      Except.ok ⟨LintStatus.SUCCESS, []⟩ := by
  obtain ⟨hdll, hlib, hzero⟩ := C4_architecture_checks_amended
  refine ⟨?_, ?_, ?_⟩
  · obtain ⟨r, hr, hmem, hall⟩ := hdll w4 "arm" [⟨["pkg", "bin", "d.dll"]⟩]
      (by intro f hf; simp only [List.mem_singleton] at hf; subst hf; decide)
    exact ⟨r, hr, hmem _ (by simp) (by decide)⟩
  · obtain ⟨r, hr, hmem, hall⟩ := hlib w4 "x64" [libMism4]
      (by intro f hf; simp only [List.mem_singleton] at hf; subst hf; decide)
      (by intro f hf; simp only [List.mem_singleton] at hf; subst hf
          exact ⟨MachineType.I386, by decide⟩)
    exact ⟨r, hr, hmem libMism4 (by simp) MachineType.I386 (by decide) (by decide)⟩
  · exact hzero w4 "x64" [] libZero4 [libMism4] (by simp) (by simp) (by decide) (by decide)

/-! ## Claim C2: fatal conditions -/

theorem check_exports_of_dlls_loop_err (w : World) (db : Path) (dlls : List Path)
    (h : ∃ dll ∈ dlls, (w.cmd_execute_and_capture_output
      (dumpbin_command "/exports" db dll)).exit_code ≠ 0) :
    ∃ e, check_exports_of_dlls_loop w db dlls = Except.error e := by
  induction dlls with
  | nil => simp at h
  | cons d rest ih =>
    obtain ⟨x, hx, hxe⟩ := h
    simp only [check_exports_of_dlls_loop]
    by_cases hd : (w.cmd_execute_and_capture_output
        (dumpbin_command "/exports" db d)).exit_code = 0
    · have hxr : x ∈ rest := by
        rcases List.mem_cons.mp hx with h1 | h1
        · subst h1
          exact absurd hd hxe
        · exact h1
      obtain ⟨e, he⟩ := ih ⟨x, hxr, hxe⟩
      refine ⟨e, ?_⟩
      rw [if_pos hd, he]
    · exact ⟨_, by rw [if_neg hd]⟩

theorem check_lib_architecture_loop_multi (w : World) (arch : String) :
    ∀ (pref : List Path) (f : Path) (suff : List Path),
    (∀ g ∈ pref, (w.read_lib g).machine_types ≠ []) →
    2 ≤ (w.read_lib f).machine_types.length →
    ∃ e, check_lib_architecture_loop w arch (pref ++ f :: suff) = Except.error e := by
  intro pref
  induction pref with
  | nil =>
    intro f suff _ hf
    simp only [List.nil_append, check_lib_architecture_loop]
    by_cases he : f.extension = ".lib"
    · rcases hmt : (w.read_lib f).machine_types with _ | ⟨a, _ | ⟨b, l⟩⟩
      · rw [hmt] at hf
        simp at hf
      · rw [hmt] at hf
        simp at hf
      · exact ⟨VcpkgError.check_exit_failed
          ("Found more than 1 architecture in file " ++ f.generic_string),
          by rw [if_pos he]⟩
    · exact ⟨_, by rw [if_neg he]⟩
  | cons g rest ih =>
    intro f suff hp hf
    have hg : (w.read_lib g).machine_types ≠ [] := hp g (by simp)
    have hr : ∀ x ∈ rest, (w.read_lib x).machine_types ≠ [] := fun x hx => hp x (by simp [hx])
    simp only [List.cons_append, check_lib_architecture_loop]
    by_cases he : g.extension = ".lib"
    · rcases hmt : (w.read_lib g).machine_types with _ | ⟨a, _ | ⟨b, l⟩⟩
      · exact absurd hmt hg
      · obtain ⟨e, hee⟩ := ih f suff hr hf
        refine ⟨e, ?_⟩
        rw [if_pos he]
        simp only [List.append_eq]
        rw [hee]
      · exact ⟨VcpkgError.check_exit_failed
          ("Found more than 1 architecture in file " ++ g.generic_string),
          by rw [if_pos he]⟩
    · exact ⟨_, by rw [if_neg he]⟩

/-- Claim C2 as amended: a dumpbin invocation with nonzero exit status
aborts check_exports_of_dlls; an archive exposing two or more machine types
aborts check_lib_architecture provided no archive processed before it
reports zero machine types (a zero-machine-type archive instead ends the
whole check successfully); and an unrecognized library linkage aborts the
orchestrator provided the empty-package policy is not enabled (that policy
returns 0 before the linkage switch is reached). In every aborting case the
run produces a fatal error and no violation count. -/
theorem C2_fatal_conditions_amended :
    (∀ (w : World) (dlls : List Path) (db : Path),
      (∃ dll ∈ dlls, (w.cmd_execute_and_capture_output
        (dumpbin_command "/exports" db dll)).exit_code ≠ 0) →
      ∃ e, check_exports_of_dlls w dlls db = Except.error e) ∧
    (∀ (w : World) (arch : String) (pref : List Path) (f : Path) (suff : List Path),
      (∀ g ∈ pref, (w.read_lib g).machine_types ≠ []) →
      2 ≤ (w.read_lib f).machine_types.length →
      ∃ e, check_lib_architecture w arch (pref ++ f :: suff) = Except.error e) ∧
    (∀ (w : World) (spec : PackageSpec) (paths : VcpkgPaths) (pre_build_info : PreBuildInfo)
        (build_info : BuildInfo),
      build_info.policies.is_enabled BuildPolicy.EMPTY_PACKAGE = false →
      build_info.library_linkage ≠ LinkageType.DYNAMIC →
      build_info.library_linkage ≠ LinkageType.STATIC →
      ∃ e, perform_all_checks_and_return_error_count w spec paths pre_build_info build_info =
        Except.error e) := by
  refine ⟨?_, ?_, ?_⟩
  · intro w dlls db h
    obtain ⟨e, he⟩ := check_exports_of_dlls_loop_err w db dlls h
    exact ⟨e, by rw [check_exports_of_dlls, he]⟩
  · intro w arch pref f suff hp hf
    obtain ⟨e, he⟩ := check_lib_architecture_loop_multi w arch pref f suff hp hf
    exact ⟨e, by rw [check_lib_architecture, he]⟩
  · intro w spec paths pre_build_info build_info hne hd hs
    simp only [perform_all_checks_and_return_error_count, hne, Bool.false_eq_true, if_false]
    split
    · exact ⟨_, rfl⟩
    · rw [if_neg hd, if_neg hs]
      exact ⟨_, rfl⟩

def c2libZ : Path := ⟨["packages", "foo_x64", "lib", "z.lib"]⟩

def c2libM : Path := ⟨["packages", "foo_x64", "lib", "m.lib"]⟩

/-- A package tree whose lib directory holds the archives z.lib and m.lib. -/
def c2FS : Filesystem :=
  ⟨fun _ => false, fun _ => false, fun _ => true,
   fun d => if d = ⟨["packages", "foo_x64", "lib"]⟩ then [c2libZ, c2libM] else [],
   fun _ => []⟩

/-- z.lib reports zero machine types; every other archive reports the two
distinct machine types AMD64 and I386. -/
def c2World : World :=
  ⟨fun _ => ⟨0, ""⟩, fun _ => ⟨MachineType.AMD64⟩,
   fun p => if p = c2libZ then ⟨[]⟩ else ⟨[MachineType.AMD64, MachineType.I386]⟩⟩

def c2Paths : VcpkgPaths :=
  ⟨c2FS, noToolset, ⟨["packages"]⟩, ⟨["buildtrees"]⟩, ⟨["ports"]⟩⟩

def c2Spec : PackageSpec := ⟨"foo", "x64"⟩

def c2Pre : PreBuildInfo := ⟨"x64", none, some ConfigurationType.RELEASE, "Windows"⟩

def c2BI : BuildInfo := ⟨LinkageType.DYNAMIC, LinkageType.DYNAMIC, ⟨[]⟩⟩

def c2BIbad : BuildInfo := ⟨⟨7⟩, ⟨0⟩, ⟨[BuildPolicy.EMPTY_PACKAGE]⟩⟩

/-- Counterexample for C2. First run: the scanned lib list contains an
archive with two distinct machine types, yet the validation run completes
normally with count 2 instead of aborting, because the zero-machine-type
archive before it ends the architecture check early. Second run: the
library linkage code 7 is neither DYNAMIC nor STATIC, yet the run returns 0
instead of aborting, because the empty-package policy returns before the
linkage switch. -/
theorem C2_counterexample :
    ((perform_all_checks_and_return_error_count c2World c2Spec c2Paths c2Pre c2BI).map
        Prod.fst = Except.ok 2 ∧
     c2libM ∈ scanned_release_libs c2FS (c2Paths.package_dir c2Spec) ∧
     (c2World.read_lib c2libM).machine_types.dedup.length = 2) ∧
    (perform_all_checks_and_return_error_count c2World c2Spec c2Paths c2Pre c2BIbad =
        Except.ok (0, []) ∧
     c2BIbad.library_linkage ≠ LinkageType.DYNAMIC ∧
     c2BIbad.library_linkage ≠ LinkageType.STATIC) := by
  exact ⟨⟨by rfl, by decide, by decide⟩, ⟨by rfl, by decide, by decide⟩⟩

/-- Witness for C2 as amended, at a failing tool invocation, a two-machine-
type archive with no zero-machine-type archive before it, and an
unrecognized linkage code with the empty-package policy disabled. -/
theorem C2_fatal_conditions_amended_witness :
    (∃ e, check_exports_of_dlls hostileWorld [⟨["pkg", "bin", "a.dll"]⟩] ⟨["dumpbin.exe"]⟩ =
      Except.error e) ∧
    (∃ e, check_lib_architecture c2World "x64" ([] ++ c2libM :: []) = Except.error e) ∧
    (∃ e, perform_all_checks_and_return_error_count c2World c2Spec c2Paths c2Pre
      ⟨⟨7⟩, ⟨0⟩, ⟨[]⟩⟩ = Except.error e) := by
  obtain ⟨ha, hb, hc⟩ := C2_fatal_conditions_amended
  refine ⟨?_, ?_, ?_⟩
  · exact ha hostileWorld [⟨["pkg", "bin", "a.dll"]⟩] ⟨["dumpbin.exe"]⟩
      ⟨⟨["pkg", "bin", "a.dll"]⟩, by simp, by decide⟩
  · exact hb c2World "x64" [] c2libM [] (by simp) (by decide)
  · exact hc c2World c2Spec c2Paths c2Pre ⟨⟨7⟩, ⟨0⟩, ⟨[]⟩⟩ (by decide) (by decide) (by decide)

/-! ## Claim C8: outdated CRT linkage -/

/-- Specification form of the per-dll matching: the first entry of the list
selected for the declared toolset version whose pattern matches the
dependents output of the dll. -/
def outdated_crts_matching (w : World) (dumpbin_exe : Path) (pre_build_info : PreBuildInfo)
    (dll : Path) : Option OutdatedDynamicCrt :=
  (get_outdated_dynamic_crts pre_build_info.platform_toolset).find? (fun outdated_crt =>
    regex_search_icase (w.cmd_execute_and_capture_output
      (dumpbin_command "/dependents" dumpbin_exe dll)).output outdated_crt.regex)

/-- Specification form of the flagged-dll list. -/
def dlls_with_outdated_crt_spec (w : World) (dumpbin_exe : Path)
    (pre_build_info : PreBuildInfo) (dlls : List Path) : List OutdatedDynamicCrtAndFile :=
  dlls.filterMap (fun dll =>
    (outdated_crts_matching w dumpbin_exe pre_build_info dll).map (fun crt => ⟨dll, crt⟩))

theorem check_outdated_crt_loop_eq (w : World) (dumpbin_exe : Path)
    (pre_build_info : PreBuildInfo) (dlls : List Path)
    (hexit : ∀ dll ∈ dlls, (w.cmd_execute_and_capture_output
      (dumpbin_command "/dependents" dumpbin_exe dll)).exit_code = 0) :
    check_outdated_crt_linkage_of_dlls_loop w dumpbin_exe pre_build_info dlls =
      Except.ok (dlls_with_outdated_crt_spec w dumpbin_exe pre_build_info dlls) := by
  induction dlls with
  | nil => rfl
  | cons d rest ih =>
    have hd := hexit d (by simp)
    have hr : ∀ dll ∈ rest, (w.cmd_execute_and_capture_output
        (dumpbin_command "/dependents" dumpbin_exe dll)).exit_code = 0 :=
      fun dll hdll => hexit dll (by simp [hdll])
    simp only [check_outdated_crt_linkage_of_dlls_loop, hd, if_pos,
      dlls_with_outdated_crt_spec, List.filterMap_cons]
    rw [ih hr]
    rcases hm : (get_outdated_dynamic_crts pre_build_info.platform_toolset).find?
        (fun outdated_crt => regex_search_icase (w.cmd_execute_and_capture_output
          (dumpbin_command "/dependents" dumpbin_exe d)).output outdated_crt.regex)
      with _ | crt <;>
      simp [outdated_crts_matching, hm, dlls_with_outdated_crt_spec]

theorem check_outdated_crt_linkage_of_dlls_eq (w : World) (dlls : List Path)
    (dumpbin_exe : Path) (build_info : BuildInfo) (pre_build_info : PreBuildInfo)
    (hpol : build_info.policies.is_enabled BuildPolicy.ALLOW_OBSOLETE_MSVCRT = false)
    (hexit : ∀ dll ∈ dlls, (w.cmd_execute_and_capture_output
      (dumpbin_command "/dependents" dumpbin_exe dll)).exit_code = 0) :
    check_outdated_crt_linkage_of_dlls w dlls dumpbin_exe build_info pre_build_info =
      Except.ok (if (dlls_with_outdated_crt_spec w dumpbin_exe pre_build_info dlls).isEmpty
        then ⟨LintStatus.SUCCESS, []⟩
        else ⟨LintStatus.ERROR_DETECTED,
          ["Detected outdated dynamic CRT in the following files:", ""] ++
          (dlls_with_outdated_crt_spec w dumpbin_exe pre_build_info dlls).map (fun btf =>
            "    " ++ btf.file.generic_string ++ ": " ++ btf.outdated_crt.name) ++
          ["", "To inspect the dll files, use:\n    dumpbin.exe /dependents mydllfile.dll"]⟩) := by
  simp only [check_outdated_crt_linkage_of_dlls, hpol, Bool.false_eq_true, if_false]
  rw [check_outdated_crt_loop_eq w dumpbin_exe pre_build_info dlls hexit]
  by_cases hne : (dlls_with_outdated_crt_spec w dumpbin_exe pre_build_info dlls).isEmpty <;>
    simp [hne]

/-- Claim C8: with the obsolete-runtime policy disabled and the tool
succeeding on every dll, the check flags a dll exactly when some entry of
the list selected for the declared toolset version matches the dependents
output of that dll: the verdict is ERROR_DETECTED exactly when such a dll
exists, and every flagged dll appears with the matched entry name in the
diagnostics. In particular, under the earliest toolset only entries of the
historical list are consulted. -/
theorem C8_outdated_crt_flags_iff (w : World) (dlls : List Path) (dumpbin_exe : Path)
    (build_info : BuildInfo) (pre_build_info : PreBuildInfo)
    (hpol : build_info.policies.is_enabled BuildPolicy.ALLOW_OBSOLETE_MSVCRT = false)
    (hexit : ∀ dll ∈ dlls, (w.cmd_execute_and_capture_output
      (dumpbin_command "/dependents" dumpbin_exe dll)).exit_code = 0) :
    ∃ r, check_outdated_crt_linkage_of_dlls w dlls dumpbin_exe build_info pre_build_info =
        Except.ok r ∧
      (r.status = LintStatus.ERROR_DETECTED ↔
        ∃ dll ∈ dlls, ∃ crt ∈ get_outdated_dynamic_crts pre_build_info.platform_toolset,
          regex_search_icase (w.cmd_execute_and_capture_output
            (dumpbin_command "/dependents" dumpbin_exe dll)).output crt.regex = true) ∧
      (∀ dll ∈ dlls, ∀ crt,
        outdated_crts_matching w dumpbin_exe pre_build_info dll = some crt →
        ("    " ++ dll.generic_string ++ ": " ++ crt.name) ∈ r.diags) := by
  refine ⟨_, check_outdated_crt_linkage_of_dlls_eq w dlls dumpbin_exe build_info
    pre_build_info hpol hexit, ?_, ?_⟩
  · by_cases hne : (dlls_with_outdated_crt_spec w dumpbin_exe pre_build_info dlls).isEmpty
    · rw [if_pos hne]
      simp only [List.isEmpty_iff] at hne
      constructor
      · intro hs
        exact absurd hs (by decide)
      · rintro ⟨dll, hdll, crt, hcrt, hp⟩
        have hsome : (outdated_crts_matching w dumpbin_exe pre_build_info dll).isSome := by
          rw [outdated_crts_matching, List.find?_isSome]
          exact ⟨crt, hcrt, hp⟩
        obtain ⟨c, hc⟩ := Option.isSome_iff_exists.mp hsome
        have hmem : (⟨dll, c⟩ : OutdatedDynamicCrtAndFile) ∈
            dlls_with_outdated_crt_spec w dumpbin_exe pre_build_info dlls := by
          simp only [dlls_with_outdated_crt_spec, List.mem_filterMap]
          exact ⟨dll, hdll, by simp [hc]⟩
        rw [hne] at hmem
        cases hmem
    · rw [if_neg hne]
      have hex : ∃ x, x ∈ dlls_with_outdated_crt_spec w dumpbin_exe pre_build_info dlls := by
        rcases hq : dlls_with_outdated_crt_spec w dumpbin_exe pre_build_info dlls
          with _ | ⟨x, xs⟩
        · rw [hq] at hne
          simp at hne
        · exact ⟨x, by simp [hq]⟩
      obtain ⟨x, hx⟩ := hex
      simp only [dlls_with_outdated_crt_spec, List.mem_filterMap] at hx
      obtain ⟨dll, hdll, hmap⟩ := hx
      rcases hm : outdated_crts_matching w dumpbin_exe pre_build_info dll with _ | crt
      · rw [hm] at hmap
        cases hmap
      · have hm2 : (get_outdated_dynamic_crts pre_build_info.platform_toolset).find?
            (fun outdated_crt => regex_search_icase (w.cmd_execute_and_capture_output
              (dumpbin_command "/dependents" dumpbin_exe dll)).output outdated_crt.regex) =
            some crt := by
          rw [outdated_crts_matching] at hm
          exact hm
        have hp := List.find?_some hm2
        have hcm := List.mem_of_find?_eq_some hm2
        constructor
        · intro _
          exact ⟨dll, hdll, crt, hcm, hp⟩
        · intro _
          rfl
  · intro dll hdll crt hm
    have hmem : (⟨dll, crt⟩ : OutdatedDynamicCrtAndFile) ∈
        dlls_with_outdated_crt_spec w dumpbin_exe pre_build_info dlls := by
      simp only [dlls_with_outdated_crt_spec, List.mem_filterMap]
      exact ⟨dll, hdll, by simp [hm]⟩
    have hne : (dlls_with_outdated_crt_spec w dumpbin_exe pre_build_info dlls).isEmpty =
        false := by
      rcases hq : dlls_with_outdated_crt_spec w dumpbin_exe pre_build_info dlls
        with _ | ⟨x, xs⟩
      · rw [hq] at hmem
        cases hmem
      · rfl
    simp only [hne, Bool.false_eq_true, if_false]
    refine List.mem_append.mpr (Or.inl ?_)
    refine List.mem_append.mpr (Or.inr ?_)
    exact List.mem_map.mpr ⟨⟨dll, crt⟩, hmem, rfl⟩

/-- A world whose dependents report names msvcp120.dll - an entry of the
superset list only - and KERNEL32.dll. -/
def c8World : World :=
  ⟨fun _ => ⟨0, "Image has the following dependencies:\n    msvcp120.dll\n    KERNEL32.dll"⟩,
   fun _ => ⟨MachineType.AMD64⟩, fun _ => ⟨[MachineType.AMD64]⟩⟩

def c8Pre : PreBuildInfo := ⟨"x64", some "v120", none, "Windows"⟩

def c8Dll : Path := ⟨["pkg", "bin", "foo.dll"]⟩

set_option maxRecDepth 4000 in
/-- Witness for C8, realizing the end-to-end scenario of the claim: under
the earliest toolset v120 a dll depending on msvcp120.dll - a name of the
superset list that is not in the historical list - produces no
outdated-runtime violation, although its pattern does match the output. -/
theorem C8_outdated_crt_flags_iff_witness :
    (∃ r, check_outdated_crt_linkage_of_dlls c8World [c8Dll] ⟨["dumpbin.exe"]⟩ c2BI c8Pre =
        Except.ok r ∧ r.status ≠ LintStatus.ERROR_DETECTED) ∧
    check_outdated_crt_linkage_of_dlls c8World [c8Dll] ⟨["dumpbin.exe"]⟩ c2BI c8Pre =
      Except.ok ⟨LintStatus.SUCCESS, []⟩ ∧
    regex_search_icase (c8World.cmd_execute_and_capture_output
      (dumpbin_command "/dependents" ⟨["dumpbin.exe"]⟩ c8Dll)).output "msvcp120\\.dll" = true ∧
    "msvcp120.dll" ∉ V_NO_120.map OutdatedDynamicCrt.name ∧
    "msvcp120.dll" ∈ V_NO_MSVCRT.map OutdatedDynamicCrt.name ∧
    get_outdated_dynamic_crts c8Pre.platform_toolset = V_NO_120 := by
  obtain ⟨r, hr, hiff, hmem⟩ := C8_outdated_crt_flags_iff c8World [c8Dll] ⟨["dumpbin.exe"]⟩
    c2BI c8Pre (by decide) (by decide)
  refine ⟨⟨r, hr, fun hs => ?_⟩, by rfl, by decide, by decide, by decide, by rfl⟩
  have hex := hiff.mp hs
  revert hex
  decide

/-- Witness for C9 as amended at the concrete one-file package tree. -/
theorem C9_debug_include_check_amended_witness :
    (check_for_files_in_debug_include_directory fs9 pkg9).status =
      LintStatus.ERROR_DETECTED :=
  (C9_debug_include_check_amended fs9 pkg9).mpr ⟨dbgIncFile, by decide, by decide, by decide⟩
